import Mathlib

/-!
Verification development for the market-research pipeline
(`excel_to_structured_json.py` and `openai_market_research.py`).

The Python source is shallowly embedded: pure string manipulation becomes
Lean string functions, the stateful API-call loop becomes explicit state
passing (a global attempt counter plus a log of issued calls), and file
writes are modelled as values describing the write that was performed.
Console printing, timestamps, time.sleep side effects and the
reference-tracking frequency table (which never influences control flow or
any returned research content) are not modelled.
-/

/-! ## String utilities (Python `in` substring test, `.lower()`, `.strip()`) -/

/-- Whether `needle` is a prefix of `hay` (character lists). -/
def charsPrefix : List Char → List Char → Bool
  | [], _ => true
  | _ :: _, [] => false
  | a :: as, b :: bs => a == b && charsPrefix as bs

/-- Whether `needle` occurs contiguously inside `hay` (character lists). -/
def charsInfix (needle : List Char) : List Char → Bool
  | [] => charsPrefix needle []
  | c :: rest => charsPrefix needle (c :: rest) || charsInfix needle rest

/-- Python `needle in hay` for strings. -/
def containsSub (hay needle : String) : Bool :=
  charsInfix needle.toList hay.toList

/-- Python `str(val).strip()` used as a truthiness test: whether any
non-whitespace character remains after stripping. -/
def stripNonEmpty (s : String) : Bool :=
  s.data.any (fun c => !(c == ' ' || c == '\t' || c == '\n' || c == '\r'))

/-- ASCII lowercase of one character (the exception messages subjected
to Python `str.lower()` here are ASCII). -/
def lowerChar (c : Char) : Char :=
  if 65 ≤ c.toNat ∧ c.toNat ≤ 90 then Char.ofNat (c.toNat + 32) else c

/-- Python `str.lower()`. -/
def strLower (s : String) : String := ⟨s.data.map lowerChar⟩

/-- The rate-limit test from `call_openai_api`:
`"429" in str(e) or "rate_limit" in str(e).lower()`. -/
def isRateLimitError (msg : String) : Bool :=
  containsSub msg ("429") || containsSub (strLower msg) ("rate_limit")

/-! ## EnrichmentClient: `OpenAIMarketResearch.call_openai_api`

The transport (the `openai` chat-completions client) is a parameter:
given the global attempt index and the prompt it either returns a
response with content, a response without content, or raises an
exception carrying a message string. -/

/-- Outcome of one transport attempt, as observed by `call_openai_api`. -/
inductive ApiResponse where
  | content (text : String)
  | emptyResponse
  | exn (msg : String)
deriving DecidableEq

/-- The `for attempt in range(max_retries)` loop of `call_openai_api`.
`fuel` counts the remaining loop iterations (initially `max_retries`,
so the loop body runs with `attempt = 0, 1, ...` while `fuel > 0`,
exactly Python's `range`).  Returns the result string, the list of
backoff sleeps performed (in seconds), and the next global attempt
index. -/
def call_attempts (transport : Nat → String → ApiResponse) (prompt : String)
    (max_retries : Nat) : Nat → Nat → Nat → List Nat → String × List Nat × Nat
  | 0, _, idx, sleeps => ("Failed after all retries", sleeps, idx)
  | fuel + 1, attempt, idx, sleeps =>
    match transport idx prompt with
    | .content text => (text, sleeps, idx + 1)
    | .emptyResponse => ("Không có nội dung trong phản hồi API", sleeps, idx + 1)
    | .exn msg =>
      if isRateLimitError msg then
        let sleeps2 := sleeps ++ [2 ^ attempt * 5]
        if attempt == max_retries - 1 then
          ("Rate limit error after " ++ toString max_retries ++ " retries: " ++ msg,
            sleeps2, idx + 1)
        else
          call_attempts transport prompt max_retries fuel (attempt + 1) (idx + 1) sleeps2
      else
        ("API Error: " ++ msg, sleeps, idx + 1)

/-- `OpenAIMarketResearch.call_openai_api(prompt, max_retries)` (source
default `max_retries = 3`): up to `max_retries` transport attempts,
retrying with exponential backoff (`(2 ** attempt) * 5` seconds) on
rate-limit errors only; any other exception is converted into an
`"API Error: ..."` content string and returned, never re-raised. -/
def call_openai_api (transport : Nat → String → ApiResponse) (idx : Nat)
    (prompt : String) (max_retries : Nat) : String × List Nat × Nat :=
  call_attempts transport prompt max_retries max_retries 0 idx []


/-! ## Question-tree data model (the structured JSON produced by
`ExcelToStructuredJSON.convert_excel_to_json` and consumed by the
research runners). -/

/-- A Layer-3 main question with its Layer-4+ sub-question strings. -/
structure Question where
  main_question : String
  sub_questions : List String
deriving DecidableEq

/-- A Layer-2 category. -/
structure Category where
  name : String
  questions : List Question
deriving DecidableEq

/-- A Layer-1 theme ("layer" in the JSON). -/
structure Layer where
  name : String
  categories : List Category
deriving DecidableEq

/-- The structured JSON document: `{"purpose": ..., "layers": [...]}`. -/
structure StructuredResult where
  purpose : String
  layers : List Layer
deriving DecidableEq

/-! ## TreeBuilder: `ExcelToStructuredJSON.convert_excel_to_json`

The spreadsheet is embedded as a grid of optional cell strings
(`none` = a pandas-NaN cell).  Reading the workbook/sheet and writing
the JSON file are outside the model: the function returns
`some result` when the source writes `result` to the output path and
returns `True`, and `none` when the source returns `False` without
writing (the insufficient-layer-columns branch). -/

/-- The purpose-marker literal searched for by the converter. -/
def purposeMarker : String := "Mục đích của Market Research"

/-- Whether a cell is non-NaN and its text contains `marker`
(Python `pd.notna(cell) and marker in str(cell)`). -/
def cellContains (marker : String) (cell : Option String) : Bool :=
  match cell with
  | some s => containsSub s marker
  | none => false

/-- Index of the first row containing the purpose marker
(the `df.iterrows()` search). -/
def findPurposeRow (grid : List (List (Option String))) : Option Nat :=
  grid.findIdx? (fun row => row.any (cellContains purposeMarker))

/-- The purpose text of the purpose row: the first non-NaN cell that
does not itself contain the marker and whose stripped text is
non-empty (kept unstripped, as in the source). -/
def purposeContentOfRow (row : List (Option String)) : Option String :=
  (row.find? (fun cell =>
    match cell with
    | some s => !containsSub s purposeMarker && stripNonEmpty s
    | none => false)).bind (fun c => c)

/-- `purpose_content if purpose_content else default` (Python truthiness:
`None` and the empty string both fall back to the default). -/
def fallbackPurpose (pc : Option String) : String :=
  match pc with
  | some p => if p == "" then "Nghiên cứu và phân tích thị trường" else p
  | none => "Nghiên cứu và phân tích thị trường"

/-- Absolute index of the first row after the purpose row containing a
cell with the substring `"Layer"` (the header-row search). -/
def findHeaderRow (grid : List (List (Option String))) (purpose_row : Nat) : Option Nat :=
  match (grid.drop (purpose_row + 1)).findIdx? (fun row => row.any (cellContains ("Layer"))) with
  | some k => some (purpose_row + 1 + k)
  | none => none

/-- Column indices of the header row whose cells contain `"Layer"`. -/
def layer_columns_of (row : List (Option String)) : List Nat :=
  (row.enum.filter (fun p => cellContains ("Layer") p.2)).map (fun p => p.1)

/-- The per-data-row cell extraction: for each recorded layer column,
`str(val)` if the cell is non-NaN, its text is not `'None'` and it
strips non-empty, else `None`.  Columns beyond the row length give
`None`. -/
def rowLayerValues (cols : List Nat) (row : List (Option String)) : List (Option String) :=
  cols.map (fun c =>
    match row.getD c none with
    | some s => if !(s == "None") && stripNonEmpty s then some s else none
    | none => none)

/-- Replace the `i`-th element of a list by `f` applied to it (models
in-place mutation of the object referenced by a layer-stack pointer). -/
def modifyAt : List α → Nat → (α → α) → List α
  | [], _, _ => []
  | a :: as, 0, f => f a :: as
  | a :: as, n + 1, f => a :: modifyAt as n f

/-- Linear first-match search of `result["layers"]` by name
(the level-0 deduplication loop). -/
def findNameIdx (v : String) : List Layer → Option Nat
  | [] => none
  | l :: ls => if l.name == v then some 0 else (findNameIdx v ls).map (fun n => n + 1)

/-- Linear first-match search of a category list by name
(the level-1 deduplication loop). -/
def findCatIdx (v : String) : List Category → Option Nat
  | [] => none
  | c :: cs => if c.name == v then some 0 else (findCatIdx v cs).map (fun n => n + 1)

/-- The converter state inside the data-row loop: the accumulated
`result["layers"]` plus the `layer_stack` pointers.  Python stores
object references into the growing tree; since the lists only ever
grow, the references are embedded as stable indices: `stack0` an index
into `layers`, `stack1` a (layer, category) index pair, `stack2` a
(layer, category, question) triple.  Stack slots at level 3 and beyond
are never assigned by the source (the `level >= 3` branch only appends
a sub-question string), so they stay `None` and are not tracked. -/
structure BuildState where
  layers : List Layer
  stack0 : Option Nat
  stack1 : Option (Nat × Nat)
  stack2 : Option (Nat × Nat × Nat)
deriving DecidableEq

/-- Initial state of the data-row loop. -/
def initBuildState : BuildState := ⟨[], none, none, none⟩

/-- Append a fresh category named `v` to the theme at index `i`. -/
def appendCategory (layers : List Layer) (i : Nat) (v : String) : List Layer :=
  modifyAt layers i (fun l => { l with categories := l.categories ++ [⟨v, []⟩] })

/-- Append a fresh question labelled `v` to the category at `(i, j)`. -/
def appendQuestion (layers : List Layer) (i j : Nat) (v : String) : List Layer :=
  modifyAt layers i (fun l =>
    { l with
      categories := modifyAt l.categories j (fun c =>
        { c with questions := c.questions ++ [⟨v, []⟩] }) })

/-- Append the sub-question string `v` to the question at `(i, j, k)`. -/
def appendSubQuestion (layers : List Layer) (i j k : Nat) (v : String) : List Layer :=
  modifyAt layers i (fun l =>
    { l with
      categories := modifyAt l.categories j (fun c =>
        { c with
          questions := modifyAt c.questions k (fun q =>
            { q with sub_questions := q.sub_questions ++ [v] }) }) })

/-- The per-level update of the data-row loop body (`if value:` branch):
level 0 deduplicates themes by label, level 1 deduplicates categories
by label under the current theme, level 2 always appends a fresh
question under the current category, levels 3+ append the value as a
sub-question of the current question; a level whose ancestor pointer
is unset leaves everything unchanged.  In every state reachable from
`initBuildState` the stack indices are in range; the `getD` defaults
are never used there. -/
def updateLevel (st : BuildState) (level : Nat) (value : Option String) : BuildState :=
  match value with
  | none => st
  | some v =>
    if level == 0 then
      match findNameIdx v st.layers with
      | some i => { st with stack0 := some i }
      | none =>
        { st with layers := st.layers ++ [⟨v, []⟩], stack0 := some st.layers.length }
    else if level == 1 then
      match st.stack0 with
      | none => st
      | some i =>
        let cats := (st.layers.getD i ⟨"", []⟩).categories
        match findCatIdx v cats with
        | some j => { st with stack1 := some (i, j) }
        | none =>
          { st with layers := appendCategory st.layers i v, stack1 := some (i, cats.length) }
    else if level == 2 then
      match st.stack1 with
      | none => st
      | some (i, j) =>
        let qs := ((st.layers.getD i ⟨"", []⟩).categories.getD j ⟨"", []⟩).questions
        { st with layers := appendQuestion st.layers i j v, stack2 := some (i, j, qs.length) }
    else
      match st.stack2 with
      | none => st
      | some (i, j, k) => { st with layers := appendSubQuestion st.layers i j k v }

/-- `deepest_level`: the greatest index holding a non-empty value
(`none` models Python's `-1`, i.e. an all-empty row). -/
def deepestLevel (vals : List (Option String)) : Option Nat :=
  vals.enum.foldl (fun acc p => if p.2.isSome then some p.1 else acc) none

/-- One iteration of the data-row loop body for a non-skipped row:
process levels `0..deepest` in order, then clear every stack pointer
deeper than the deepest non-empty level. -/
def processRow (st : BuildState) (vals : List (Option String)) : BuildState :=
  match deepestLevel vals with
  | none => st
  | some d =>
    let st1 := (List.range (d + 1)).foldl
      (fun s lvl => updateLevel s lvl (vals.getD lvl none)) st
    { st1 with
      stack1 := if d < 1 then none else st1.stack1,
      stack2 := if d < 2 then none else st1.stack2 }

/-- The full data-row loop: rows whose cells are all NaN are skipped
(`row.isna().all()`); every other row is processed. -/
def buildRows (cols : List Nat) (rows : List (List (Option String))) : BuildState :=
  rows.foldl (fun st row =>
    if row.all (fun c => c.isNone) then st
    else processRow st (rowLayerValues cols row)) initBuildState

/-- `ExcelToStructuredJSON.convert_excel_to_json` from the grid onward:
locate the purpose row and purpose text, locate the layer header row,
record its layer columns, fail (returning `False` and writing nothing)
when fewer than 3 layer columns were found, otherwise run the data-row
loop and write the result.  When no purpose row or no header row is
found the layer parsing is skipped entirely and a result with an empty
`layers` list is still written. -/
def convert_excel_to_json (grid : List (List (Option String)))
    (custom_purpose : Option String) : Option StructuredResult :=
  let purpose_row? := findPurposeRow grid
  let purpose_content :=
    match purpose_row? with
    | some i => purposeContentOfRow (grid.getD i [])
    | none => none
  let final_purpose :=
    match custom_purpose with
    | some c => if c == "" then fallbackPurpose purpose_content else c
    | none => fallbackPurpose purpose_content
  match purpose_row? with
  | none => some ⟨final_purpose, []⟩
  | some pr =>
    match findHeaderRow grid pr with
    | none => some ⟨final_purpose, []⟩
    | some hr =>
      let cols := layer_columns_of (grid.getD hr [])
      if cols.length < 3 then none
      else some ⟨final_purpose, (buildRows cols (grid.drop (hr + 1))).layers⟩

/-! ## Prompt builders (`create_layer3_prompt_request`,
`create_layer3_comprehensive_category_prompt`,
`create_layer4_enhancement_prompt`,
`create_layer4_comprehensive_report_prompt`,
`get_vietnamese_market_name`).  The instance fields `self.industry`
and `self.market` are explicit first arguments. -/

/-- The market-name translation table of `get_vietnamese_market_name`. -/
def marketTranslations : List (String × String) :=
  [("🇺🇸 United States", "🇺🇸 Hoa Kỳ"), ("🇨🇳 China", "🇨🇳 Trung Quốc"),
   ("🇯🇵 Japan", "🇯🇵 Nhật Bản"), ("🇰🇷 South Korea", "🇰🇷 Hàn Quốc"),
   ("🇹🇭 Thailand", "🇹🇭 Thái Lan"), ("🇸🇬 Singapore", "🇸🇬 Singapore"),
   ("🇲🇾 Malaysia", "🇲🇾 Malaysia"), ("🇮🇩 Indonesia", "🇮🇩 Indonesia"),
   ("🇵🇭 Philippines", "🇵🇭 Philippines"), ("🇬🇧 United Kingdom", "🇬🇧 Vương quốc Anh"),
   ("🇩🇪 Germany", "🇩🇪 Đức"), ("🇫🇷 France", "🇫🇷 Pháp"), ("🇮🇹 Italy", "🇮🇹 Ý"),
   ("🇪🇸 Spain", "🇪🇸 Tây Ban Nha"), ("🇨🇦 Canada", "🇨🇦 Canada"),
   ("🇦🇺 Australia", "🇦🇺 Úc"), ("🇳🇿 New Zealand", "🇳🇿 New Zealand"),
   ("🇧🇷 Brazil", "🇧🇷 Brazil"), ("🇲🇽 Mexico", "🇲🇽 Mexico"),
   ("🇮🇳 India", "🇮🇳 Ấn Độ"), ("🇷🇺 Russia", "🇷🇺 Nga"),
   ("🇿🇦 South Africa", "🇿🇦 Nam Phi"), ("🇪🇬 Egypt", "🇪🇬 Ai Cập"),
   ("🇦🇪 UAE", "🇦🇪 UAE"), ("🇸🇦 Saudi Arabia", "🇸🇦 Ả Rập Saudi"),
   ("🇹🇷 Turkey", "🇹🇷 Thổ Nhĩ Kỳ"), ("🇳🇱 Netherlands", "🇳🇱 Hà Lan"),
   ("🇸🇪 Sweden", "🇸🇪 Thụy Điển"), ("🇳🇴 Norway", "🇳🇴 Na Uy"),
   ("🇩🇰 Denmark", "🇩🇰 Đan Mạch"), ("🇫🇮 Finland", "🇫🇮 Phần Lan"),
   ("🇨🇭 Switzerland", "🇨🇭 Thụy Sĩ"), ("🇦🇹 Austria", "🇦🇹 Áo"),
   ("🇧🇪 Belgium", "🇧🇪 Bỉ"), ("🇵🇱 Poland", "🇵🇱 Ba Lan"),
   ("🇨🇿 Czech Republic", "🇨🇿 Cộng hòa Séc"), ("🇭🇺 Hungary", "🇭🇺 Hungary"),
   ("🇬🇷 Greece", "🇬🇷 Hy Lạp"), ("🇵🇹 Portugal", "🇵🇹 Bồ Đào Nha"),
   ("🇮🇪 Ireland", "🇮🇪 Ireland"), ("🇮🇱 Israel", "🇮🇱 Israel"),
   ("🇭🇰 Hong Kong", "🇭🇰 Hồng Kông"), ("🇹🇼 Taiwan", "🇹🇼 Đài Loan"),
   ("🇦🇷 Argentina", "🇦🇷 Argentina"), ("🇨🇱 Chile", "🇨🇱 Chile"),
   ("🇨🇴 Colombia", "🇨🇴 Colombia"), ("🇵🇪 Peru", "🇵🇪 Peru"),
   ("🇻🇪 Venezuela", "🇻🇪 Venezuela"), ("🇪🇨 Ecuador", "🇪🇨 Ecuador"),
   ("🇺🇾 Uruguay", "🇺🇾 Uruguay"), ("🇧🇴 Bolivia", "🇧🇴 Bolivia"),
   ("🇵🇾 Paraguay", "🇵🇾 Paraguay"), ("🇳🇬 Nigeria", "🇳🇬 Nigeria"),
   ("🇰🇪 Kenya", "🇰🇪 Kenya"), ("🇬🇭 Ghana", "🇬🇭 Ghana"),
   ("🇪🇹 Ethiopia", "🇪🇹 Ethiopia"), ("🇺🇬 Uganda", "🇺🇬 Uganda"),
   ("🇹🇿 Tanzania", "🇹🇿 Tanzania"), ("🇿🇼 Zimbabwe", "🇿🇼 Zimbabwe"),
   ("🌏 Southeast Asia", "🌏 Đông Nam Á"),
   ("🌍 Asia-Pacific", "🌍 Châu Á - Thái Bình Dương"),
   ("🌎 Global Market", "🌎 Thị trường Toàn cầu")]

/-- `get_vietnamese_market_name`: dictionary lookup with the market
itself as the default. -/
def get_vietnamese_market_name (market : String) : String :=
  match marketTranslations.find? (fun p => p.1 == market) with
  | some p => p.2
  | none => market

/-- `create_layer3_prompt_request(layer1, layer2, main_question, purpose)`. -/
def create_layer3_prompt_request (industry market : String)
    (layer1 layer2 main_question purpose : String) : String :=
  "Bạn là chuyên gia phân tích thị trường cho ngành \"" ++ industry
    ++ "\" tại thị trường \"" ++ market ++ "\".

MỤC ĐÍCH NGHIÊN CỨU: " ++ purpose ++ "

NGỮ CẢNH PHÂN TÍCH:
- Chủ đề chính: " ++ layer1 ++ "
- Lĩnh vực: " ++ layer2 ++ "

CÂU HỎI CẦN TRẢ LỜI: \"" ++ main_question ++ "\"

🎯 **YÊU CẦU BẮT BUỘC:**
1. **TRẢ LỜI TRỰC TIẾP** câu hỏi ngay từ câu đầu tiên
2. **BẮT ĐẦU** bằng: \"Để trả lời câu hỏi về [tóm tắt ngắn câu hỏi]...\"
3. **FOCUS 100%** vào nội dung mà câu hỏi đang hỏi - không drift sang chủ đề khác
4. **SỬ DỤNG** số liệu và ví dụ cụ thể từ thị trường " ++ market ++ "
5. **KẾT THÚC** bằng conclusion trả lời rõ ràng câu hỏi

**CẤU TRÚC:**
- Đoạn 1: Trả lời trực tiếp + evidence chính (3-4 câu)
- Đoạn 2: Phân tích deeper với data/examples (3-4 câu)
- Đoạn 3: Impact/implications và conclusion (2-3 câu)

**TRÁNH:**
- Nói chung chung hoặc lạc đề
- Đặt câu hỏi thêm
- Phân tích những gì không được hỏi

**CHỈ TẬP TRUNG:** Trả lời chính xác và đầy đủ câu hỏi \"" ++ main_question ++ "\""

/-- `create_layer3_comprehensive_category_prompt(layer1, layer2,
all_questions, purpose)` (the per-category single-call prompt). -/
def create_layer3_comprehensive_category_prompt (industry market : String)
    (layer1 layer2 : String) (all_questions : List String) (purpose : String) : String :=
  let vietnamese_market := get_vietnamese_market_name market
  let questions_text :=
    String.intercalate ("\n") (all_questions.map (fun q => "- " ++ q))
  "Bạn là chuyên gia phân tích thị trường cho ngành \"" ++ industry
    ++ "\" tại thị trường \"" ++ vietnamese_market ++ "\".

NGỮ CẢNH: " ++ layer1 ++ " > " ++ layer2 ++ "
MỤC ĐÍCH NGHIÊN CỨU: \"" ++ purpose ++ "\"

CÁC CÂU HỎI CẦN TRẢ LỜI TOÀN DIỆN:
" ++ questions_text ++ "

🎯 **NHIỆM VỤ:** Viết phân tích comprehensive cho toàn bộ category \"" ++ layer2
    ++ "\" bằng cách trả lời tích hợp TẤT CẢ câu hỏi trên.

**BẮT ĐẦU NGAY VỚI PHÂN TÍCH** - KHÔNG có câu giới thiệu hay mở đầu, đi thẳng vào tình hình hiện tại.

**CÁCH VIẾT - FLOW TỰ NHIÊN:**

Viết một phân tích dạng văn xuôi, liền mạch theo logic:
1. **Tình hình hiện tại** (150-200 từ): Bắt đầu ngay với overview về " ++ layer2
    ++ " trong ngành " ++ industry ++ "
2. **Phân tích chi tiết** (200-250 từ): Deep dive các factors chính, data cụ thể
3. **Tác động và xu hướng** (150-200 từ): Impacts, trends, opportunities
4. **Khuyến nghị chiến lược** (100-150 từ): Actionable insights và recommendations

**YÊU CẦU:**
- BẮT ĐẦU NGAY với phân tích (VD: \"Tình hình " ++ layer2 ++ " hiện tại...\", \"Trong bối cảnh "
    ++ layer2 ++ "...\")
- TRẢ LỜI HẾT TẤT CẢ các câu hỏi được liệt kê
- VIẾT liền mạch như một bài phân tích chuyên nghiệp
- SỬ DỤNG data và examples cụ thể từ " ++ vietnamese_market ++ "
- TRÁNH section headers, viết dạng essay flow tự nhiên
- KẾT HỢP insights từ tất cả câu hỏi thành một comprehensive view

**PHONG CÁCH:**
- Professional analysis writing
- Smooth transitions giữa các ý
- Evidence-based với concrete examples
- Forward-looking perspective

**VÍ DỤ BẮT ĐẦU TỐT:**
\"Tình hình " ++ layer2 ++ " trong ngành " ++ industry ++ " tại " ++ vietnamese_market
    ++ " hiện đang...\"
\"Bối cảnh " ++ layer2 ++ " cho thấy...\"
\"Môi trường " ++ layer2 ++ " đang trải qua...\"

Tạo một phân tích comprehensive trả lời hết các câu hỏi trên để hiểu toàn diện về "
    ++ layer2 ++ " impact lên ngành " ++ industry ++ "."

/-- `create_layer4_enhancement_prompt(layer1, layer2, main_question,
sub_question, layer3_content, purpose)` (the meta-prompt request used
by `enhance_to_layer4`). -/
def create_layer4_enhancement_prompt (industry market : String)
    (layer1 layer2 main_question sub_question layer3_content purpose : String) : String :=
  "As a master prompt engineer, I need to enhance a specific section of an existing market research report from Layer 3 to Layer 4 standard for: \""
    ++ industry ++ "\" in market: \"" ++ market ++ "\".

The research purpose is: \"" ++ purpose ++ "\"
Structure: layer 1: " ++ layer1 ++ " | layer 2: " ++ layer2 ++ " | layer 3: " ++ main_question ++ "

EXISTING LAYER 3 CONTENT TO ENHANCE:
" ++ layer3_content ++ "

SPECIFIC ENHANCEMENT REQUEST (Layer 4):
" ++ sub_question ++ "

Create a prompt for GPT to provide deep, detailed analysis specifically for the enhancement request above, while building upon the existing Layer 3 content. The result should be much more detailed, with specific data, examples, and actionable insights. Vietnamese answer only."

/-- `create_layer4_comprehensive_report_prompt(layer1, layer2,
main_question, sub_questions, layer3_content, purpose)` (the deep
enrichment prompt integrating all sub-questions). -/
def create_layer4_comprehensive_report_prompt (industry market : String)
    (layer1 layer2 main_question : String) (sub_questions : List String)
    (layer3_content purpose : String) : String :=
  let vietnamese_market := get_vietnamese_market_name market
  let sub_questions_text :=
    String.intercalate ("\n") (sub_questions.map (fun sq => "- " ++ sq))
  "Bạn là chuyên gia phân tích thị trường cho ngành \"" ++ industry
    ++ "\" tại thị trường \"" ++ vietnamese_market ++ "\".

NGỮ CẢNH: " ++ layer1 ++ " > " ++ layer2 ++ "
CÂU HỎI CHÍNH CẦN TRẢ LỜI: \"" ++ main_question ++ "\"

PHÂN TÍCH SẴN CÓ (Layer 3):
" ++ layer3_content ++ "

CÁC KHÍA CẠNH CHI TIẾT CẦN PHÂN TÍCH:
" ++ sub_questions_text ++ "

🎯 **NHIỆM VỤ:** Viết phân tích chuyên sâu trả lời câu hỏi chính \"" ++ main_question
    ++ "\" bằng cách tích hợp tất cả khía cạnh chi tiết.

**BẮT ĐẦU NGAY VỚI NỘI DUNG PHÂN TÍCH** - KHÔNG có câu giới thiệu, không có \"Để trả lời câu hỏi...\", đi thẳng vào tình hình hiện tại.

**CÁCH VIẾT - FLOW TỰ NHIÊN:**

Viết một phân tích dạng văn xuôi, liền mạch theo logic:
1. **Tình hình hiện tại** (120-150 từ): Bắt đầu ngay với phân tích tình trạng hiện tại, data cụ thể
2. **Động lực và tác động** (120-150 từ): Drivers chính, impacts lên players và consumers
3. **Cơ hội và xu hướng** (120-150 từ): Opportunities, growth areas, success cases
4. **Thách thức và rủi ro** (80-120 từ): Barriers, risks cần monitor
5. **Khuyến nghị chiến lược** (100-120 từ): Actionable steps cụ thể

**YÊU CẦU CRITICAL:**
- BẮT ĐẦU NGAY bằng câu về tình hình thực tế (VD: \"Hiện tại thị trường...\", \"Trong bối cảnh...\", \"Tình trạng hiện tại...\")
- KHÔNG sử dụng section headers hay bullet points
- KHÔNG có câu giới thiệu hay mở đầu
- VIẾT liền mạch như một bài phân tích chuyên nghiệp
- Use real " ++ vietnamese_market ++ " market data và case studies
- BE SPECIFIC - tránh generalities
- Total: 550-700 từ

**PHONG CÁCH:**
- Văn xuôi professional, mạch lạc
- Transition tự nhiên giữa các ý
- Bắt đầu ngay với facts và analysis
- Flow như một essay analysis, không intro

**VÍ DỤ BẮT ĐẦU TỐT:**
\"Hiện tại ngành [X] đang trải qua...\"
\"Trong bối cảnh thị trường [Y]...\"
\"Tình trạng hiện tại cho thấy...\"
\"Thị trường [Z] đang chứng kiến...\"

**KẾT THÚC** với conclusion trả lời hoàn chỉnh câu hỏi chính."

/-! ## Run state: the sequence of EnrichmentClient calls

Every API interaction of the runners goes through `call_openai_api`.
The run state threads the global transport-attempt index and a log of
the `call_openai_api` invocations as (prompt, returned result) pairs,
in order.  One EnrichmentClient call = one log entry (its internal
retries advance only the attempt index). -/

/-- Threaded state of a research run. -/
structure RunState where
  idx : Nat
  calls : List (String × String)
deriving DecidableEq

/-- Issue one `call_openai_api(prompt)` (source default `max_retries=3`),
logging the call and advancing the attempt index. -/
def apiCall (transport : Nat → String → ApiResponse) (st : RunState)
    (prompt : String) : String × RunState :=
  let r := call_openai_api transport st.idx prompt 3
  (r.1, ⟨r.2.2, st.calls ++ [(prompt, r.1)]⟩)

/-! ## ResultStore: the persisted results document

The persisted JSON consumed/produced by `enhance_to_layer4`,
`enhance_to_layer4_comprehensive` and `add_layer4_enhancement`.
`layer3_content` may be `null` in persisted files (category-mode runs
store `None`), hence the `Option`.  Enhancement timestamps are not
modelled; `layer4_enhancements` maps a sub-question to its
`enhanced_content`. -/

/-- A persisted question node. -/
structure StoredQuestion where
  main_question : String
  layer3_content : Option String
  sub_questions : List String
  layer4_enhancements : List (String × String)
deriving DecidableEq

/-- A persisted category node. -/
structure StoredCategory where
  category_name : String
  questions : List StoredQuestion
deriving DecidableEq

/-- A persisted layer node. -/
structure StoredLayer where
  layer_name : String
  categories : List StoredCategory
deriving DecidableEq

/-- The persisted results document (metadata other than `purpose` and
the `research_results` tree is not read by the mutation routines). -/
structure StoredResults where
  purpose : String
  research_results : List StoredLayer
deriving DecidableEq

/-- Python `question.get('layer3_content', '')` followed by truthiness:
a missing/null content behaves as the empty string. -/
def contentOrEmpty (c : Option String) : String :=
  match c with
  | some s => s
  | none => ""

/-- The question-level search of `enhance_to_layer4`: the first
matching question assigns `layer3_content` and breaks; a category with
no matching question leaves the accumulator unchanged. -/
def findContentInQuestions (main_question : String) (qs : List StoredQuestion)
    (acc : String) : String :=
  match qs.find? (fun q => q.main_question == main_question) with
  | some q => contentOrEmpty q.layer3_content
  | none => acc

/-- The nested search loops of `enhance_to_layer4`: every matching
layer and category is scanned (the source only breaks the innermost
loop), so a later match overwrites an earlier one. -/
def find_layer3_content (results : StoredResults)
    (layer_name category_name main_question : String) : String :=
  results.research_results.foldl
    (fun acc l =>
      if l.layer_name == layer_name then
        l.categories.foldl
          (fun a c =>
            if c.category_name == category_name then
              findContentInQuestions main_question c.questions a
            else a) acc
      else acc) ("")

/-- The question-level search of `enhance_to_layer4_comprehensive`
(assigns both `layer3_content` and `sub_questions`). -/
def findContentSubsInQuestions (main_question : String) (qs : List StoredQuestion)
    (acc : String × List String) : String × List String :=
  match qs.find? (fun q => q.main_question == main_question) with
  | some q => (contentOrEmpty q.layer3_content, q.sub_questions)
  | none => acc

/-- The nested search loops of `enhance_to_layer4_comprehensive`. -/
def find_layer3_content_subs (results : StoredResults)
    (layer_name category_name main_question : String) : String × List String :=
  results.research_results.foldl
    (fun acc l =>
      if l.layer_name == layer_name then
        l.categories.foldl
          (fun a c =>
            if c.category_name == category_name then
              findContentSubsInQuestions main_question c.questions a
            else a) acc
      else acc) (("") , [])

/-- `OpenAIMarketResearch.enhance_to_layer4`: locate the Layer 3
content for the (layer, category, question) locator; when found (and
truthy) run the two-call meta-prompt sequence (draft an enhancement
prompt, then execute it); otherwise return the not-found message
without calling the API. -/
def enhance_to_layer4 (industry market : String) (layer3_results : StoredResults)
    (layer_name category_name main_question sub_question : String)
    (transport : Nat → String → ApiResponse) (st : RunState) : String × RunState :=
  let purpose := layer3_results.purpose
  let layer3_content :=
    find_layer3_content layer3_results layer_name category_name main_question
  if layer3_content == "" then
    ("Không tìm thấy nội dung Layer 3 để enhance", st)
  else
    let enhancement_prompt_request := create_layer4_enhancement_prompt industry market
      layer_name category_name main_question sub_question layer3_content purpose
    let g := apiCall transport st enhancement_prompt_request
    apiCall transport g.2 g.1

/-- `OpenAIMarketResearch.enhance_to_layer4_comprehensive`: locate the
Layer 3 content and sub-questions; when both are truthy issue a single
call on the comprehensive-report prompt; otherwise return a not-found
message without calling the API. -/
def enhance_to_layer4_comprehensive (industry market : String)
    (layer3_results : StoredResults)
    (layer_name category_name main_question : String)
    (transport : Nat → String → ApiResponse) (st : RunState) : String × RunState :=
  let purpose := layer3_results.purpose
  let found := find_layer3_content_subs layer3_results layer_name category_name main_question
  let layer3_content := found.1
  let sub_questions := found.2
  if layer3_content == "" then
    ("Không tìm thấy nội dung Layer 3 để enhance", st)
  else if sub_questions.isEmpty then
    ("Không tìm thấy sub-questions để tạo báo cáo tổng hợp", st)
  else
    let comprehensive_prompt := create_layer4_comprehensive_report_prompt industry market
      layer_name category_name main_question sub_questions layer3_content purpose
    apiCall transport st comprehensive_prompt

/-- Python `question['layer4_enhancements'][sub_question] = {...}` on
an ordered dict embedded as an association list: replace the existing
key in place, else append. -/
def insertEnhancement : List (String × String) → String → String → List (String × String)
  | [], k, v => [(k, v)]
  | (k0, v0) :: rest, k, v =>
    if k0 == k then (k, v) :: rest else (k0, v0) :: insertEnhancement rest k v

/-- The update loop of `add_layer4_enhancement` at question level: the
first matching question receives the enhancement entry (the inner
`break`); later questions are untouched. -/
def updateFirstQuestion (main_question sub_question content : String) :
    List StoredQuestion → List StoredQuestion
  | [] => []
  | q :: qs =>
    if q.main_question == main_question then
      { q with layer4_enhancements :=
          insertEnhancement q.layer4_enhancements sub_question content } :: qs
    else q :: updateFirstQuestion main_question sub_question content qs

/-- The full update loop of `add_layer4_enhancement`: every matching
layer and every matching category within it is visited (no outer
breaks in the source). -/
def updateStored (r : StoredResults)
    (layer_name category_name main_question sub_question content : String) : StoredResults :=
  { r with research_results := r.research_results.map (fun l =>
      if l.layer_name == layer_name then
        { l with categories := l.categories.map (fun c =>
            if c.category_name == category_name then
              { c with questions :=
                  updateFirstQuestion main_question sub_question content c.questions }
            else c) }
      else l) }

/-- Observable outcome of `add_layer4_enhancement`: the file contents
at the output path after the call, how many `json.dump` writes the
call performed, the value returned to the caller, and the API state. -/
structure SaveOutcome where
  finalStored : StoredResults
  writesPerformed : Nat
  returned : String
  st : RunState
deriving DecidableEq

/-- `OpenAIMarketResearch.add_layer4_enhancement` with `output_file=None`
(source default: overwrite `results_file`): load the stored document,
run `enhance_to_layer4`, apply the update loop, then unconditionally
`json.dump` the document back to the path and return the path.  There
is no not-found branch: the write and the normal return happen whether
or not the locator matched anything. -/
def add_layer4_enhancement (industry market : String) (stored : StoredResults)
    (results_file : String)
    (layer_name category_name main_question sub_question : String)
    (transport : Nat → String → ApiResponse) (st : RunState) : SaveOutcome :=
  let results := stored
  let e := enhance_to_layer4 industry market results
    layer_name category_name main_question sub_question transport st
  let enhancement_content := e.1
  let updated :=
    updateStored results layer_name category_name main_question sub_question
      enhancement_content
  { finalStored := updated, writesPerformed := 1, returned := results_file, st := e.2 }

/-! ## StageRunner, per-question mode:
`OpenAIMarketResearch._run_layer4_detailed_analysis`

`run_layer3_research` dispatches here for every `analysis_level` other
than `"Layer 3 Analysis"`.  The embedding covers the
`testing_mode=False` path (the claims quantify over non-testing runs);
every testing-mode truncation and early `break` in the source is
guarded by `testing_mode`, so none of them fires on this path.
Progress counters, printing, sleeps, timestamps and the final
statistics block are not modelled. -/

/-- The `layer4_comprehensive_report` block attached to a question
(timestamp omitted). -/
structure Layer4Report where
  comprehensive_content : String
  sub_questions_integrated : List String
deriving DecidableEq

/-- A per-question-mode question result. -/
structure QResult where
  main_question : String
  sub_questions : List String
  layer3_content : String
  layer4_comprehensive_report : Option Layer4Report
deriving DecidableEq

/-- A per-question-mode category result. -/
structure QCategoryResult where
  category_name : String
  questions : List QResult
deriving DecidableEq

/-- A per-question-mode layer result. -/
structure QLayerResult where
  layer_name : String
  categories : List QCategoryResult
deriving DecidableEq

/-- The `research_results` tree of a per-question-mode run. -/
structure QRunResult where
  research_results : List QLayerResult
deriving DecidableEq

/-- The temporary single-question document built by
`_run_layer4_detailed_analysis` around the current question before
invoking `enhance_to_layer4_comprehensive` (the temp question dict has
no `layer4_enhancements` key; the search never reads it, embedded as
`[]`). -/
def tempStructure (purpose layer_name category_name : String) (q : Question)
    (layer3_content : String) : StoredResults :=
  ⟨purpose,
   [⟨layer_name,
     [⟨category_name,
       [⟨q.main_question, some layer3_content, q.sub_questions, []⟩]⟩]⟩]⟩

/-- The per-question body of `_run_layer4_detailed_analysis`: one
direct call on the Layer 3 prompt whose output becomes
`layer3_content`, then — only when the question has sub-questions —
the automatic Layer 4 comprehensive enhancement on the temporary
structure. -/
def process_question (industry market purpose layer_name category_name : String)
    (q : Question) (transport : Nat → String → ApiResponse) (st : RunState) :
    QResult × RunState :=
  let layer3_prompt := create_layer3_prompt_request industry market
    layer_name category_name q.main_question purpose
  let c1 := apiCall transport st layer3_prompt
  let layer3_content := c1.1
  if q.sub_questions.isEmpty then
    (⟨q.main_question, q.sub_questions, layer3_content, none⟩, c1.2)
  else
    let temp := tempStructure purpose layer_name category_name q layer3_content
    let c2 := enhance_to_layer4_comprehensive industry market temp
      layer_name category_name q.main_question transport c1.2
    (⟨q.main_question, q.sub_questions, layer3_content, some ⟨c2.1, q.sub_questions⟩⟩, c2.2)

/-- The question loop of `_run_layer4_detailed_analysis`. -/
def process_questions (industry market purpose layer_name category_name : String)
    (transport : Nat → String → ApiResponse) :
    List Question → RunState → List QResult × RunState
  | [], st => ([], st)
  | q :: qs, st =>
    let r := process_question industry market purpose layer_name category_name q transport st
    let rest := process_questions industry market purpose layer_name category_name
      transport qs r.2
    (r.1 :: rest.1, rest.2)

/-- The category loop of `_run_layer4_detailed_analysis`: a category is
added to the layer result only if it has questions. -/
def process_categories_l4 (industry market purpose layer_name : String)
    (transport : Nat → String → ApiResponse) :
    List Category → RunState → List QCategoryResult × RunState
  | [], st => ([], st)
  | c :: cs, st =>
    let qr := process_questions industry market purpose layer_name c.name
      transport c.questions st
    let rest := process_categories_l4 industry market purpose layer_name transport cs qr.2
    ((if qr.1.isEmpty then [] else [⟨c.name, qr.1⟩]) ++ rest.1, rest.2)

/-- The layer loop of `_run_layer4_detailed_analysis`: a layer is added
to the result only if it has categories. -/
def process_layers_l4 (industry market purpose : String)
    (transport : Nat → String → ApiResponse) :
    List Layer → RunState → List QLayerResult × RunState
  | [], st => ([], st)
  | l :: ls, st =>
    let cr := process_categories_l4 industry market purpose l.name transport l.categories st
    let rest := process_layers_l4 industry market purpose transport ls cr.2
    ((if cr.1.isEmpty then [] else [⟨l.name, cr.1⟩]) ++ rest.1, rest.2)

/-- `_run_layer4_detailed_analysis(structured_data, purpose, result,
testing_mode=False)`: per-question (Layer 4 detailed) mode. -/
def run_layer4_detailed_analysis (industry market : String) (data : StructuredResult)
    (purpose : String) (transport : Nat → String → ApiResponse) (st : RunState) :
    QRunResult × RunState :=
  let r := process_layers_l4 industry market purpose transport data.layers st
  (⟨r.1⟩, r.2)

/-! ## StageRunner, per-category mode:
`OpenAIMarketResearch._run_layer3_category_analysis`

`run_layer3_research` dispatches here when
`analysis_level == "Layer 3 Analysis"`.  Again the `testing_mode=False`
path is embedded; in this mode categories and layers are appended to
the result unconditionally. -/

/-- The `layer3_comprehensive_category` block (timestamp and the
constant `analysis_mode` string omitted). -/
structure CatComprehensive where
  comprehensive_content : String
  questions_analyzed : List String
deriving DecidableEq

/-- A question entry of a category-mode result: stored for reference
only, with `layer3_content = None`. -/
structure CQuestion where
  main_question : String
  sub_questions : List String
  layer3_content : Option String
deriving DecidableEq

/-- A category-mode category result. -/
structure CCategoryResult where
  category_name : String
  questions : List CQuestion
  layer3_comprehensive_category : CatComprehensive
deriving DecidableEq

/-- A category-mode layer result. -/
structure CLayerResult where
  layer_name : String
  categories : List CCategoryResult
deriving DecidableEq

/-- The `research_results` tree of a category-mode run. -/
structure CRunResult where
  research_results : List CLayerResult
deriving DecidableEq

/-- The per-category body of `_run_layer3_category_analysis`: gather
all main-question labels of the category, issue exactly one call on
the comprehensive category prompt, and store the individual questions
unprocessed (`layer3_content = None`). -/
def process_category_l3 (industry market purpose layer_name : String) (c : Category)
    (transport : Nat → String → ApiResponse) (st : RunState) :
    CCategoryResult × RunState :=
  let all_main_questions := c.questions.map (fun q => q.main_question)
  let comprehensive_prompt := create_layer3_comprehensive_category_prompt industry market
    layer_name c.name all_main_questions purpose
  let r := apiCall transport st comprehensive_prompt
  let category_questions := c.questions.map
    (fun q => (⟨q.main_question, q.sub_questions, none⟩ : CQuestion))
  (⟨c.name, category_questions, ⟨r.1, all_main_questions⟩⟩, r.2)

/-- The category loop of `_run_layer3_category_analysis` (appends
unconditionally). -/
def process_categories_l3 (industry market purpose layer_name : String)
    (transport : Nat → String → ApiResponse) :
    List Category → RunState → List CCategoryResult × RunState
  | [], st => ([], st)
  | c :: cs, st =>
    let cr := process_category_l3 industry market purpose layer_name c transport st
    let rest := process_categories_l3 industry market purpose layer_name transport cs cr.2
    (cr.1 :: rest.1, rest.2)

/-- The layer loop of `_run_layer3_category_analysis` (appends
unconditionally). -/
def process_layers_l3 (industry market purpose : String)
    (transport : Nat → String → ApiResponse) :
    List Layer → RunState → List CLayerResult × RunState
  | [], st => ([], st)
  | l :: ls, st =>
    let cr := process_categories_l3 industry market purpose l.name transport l.categories st
    let rest := process_layers_l3 industry market purpose transport ls cr.2
    (⟨l.name, cr.1⟩ :: rest.1, rest.2)

/-- `_run_layer3_category_analysis(structured_data, purpose, result,
testing_mode=False)`: per-category (Layer 3 comprehensive) mode. -/
def run_layer3_category_analysis (industry market : String) (data : StructuredResult)
    (purpose : String) (transport : Nat → String → ApiResponse) (st : RunState) :
    CRunResult × RunState :=
  let r := process_layers_l3 industry market purpose transport data.layers st
  (⟨r.1⟩, r.2)

/-! ## The two-call per-question routine:
`OpenAIMarketResearch.process_layer3_research`

The separate Layer-3-only entry point that uses the meta-prompt
indirection: call once to draft a refined prompt, then call again with
that draft as the prompt.  The `limit=None` (unlimited) path is
embedded; every limit check in the source is guarded by `limit`. -/

/-- A `process_layer3_research` question result (the
`research_standard` constant omitted; `layer4_enhancements` starts
empty). -/
structure L3Question where
  main_question : String
  generated_prompt : String
  layer3_content : String
  sub_questions : List String
  layer4_enhancements : List (String × String)
deriving DecidableEq

/-- A `process_layer3_research` category result. -/
structure L3Category where
  category_name : String
  questions : List L3Question
deriving DecidableEq

/-- A `process_layer3_research` layer result. -/
structure L3Layer where
  layer_name : String
  categories : List L3Category
deriving DecidableEq

/-- The `process_layer3_research` results document (metadata fields
other than `purpose` omitted). -/
structure L3Results where
  purpose : String
  research_results : List L3Layer
deriving DecidableEq

/-- The per-question body of `process_layer3_research`: build the
Layer 3 prompt request, send it to obtain a generated prompt, then
send the generated prompt verbatim to obtain the research result,
which is stored as `layer3_content`. -/
def process_l3_question (industry market purpose layer_name category_name : String)
    (q : Question) (transport : Nat → String → ApiResponse) (st : RunState) :
    L3Question × RunState :=
  let prompt_request := create_layer3_prompt_request industry market
    layer_name category_name q.main_question purpose
  let g := apiCall transport st prompt_request
  let r := apiCall transport g.2 g.1
  (⟨q.main_question, g.1, r.1, q.sub_questions, []⟩, r.2)

/-- The question loop of `process_layer3_research`. -/
def process_l3_questions (industry market purpose layer_name category_name : String)
    (transport : Nat → String → ApiResponse) :
    List Question → RunState → List L3Question × RunState
  | [], st => ([], st)
  | q :: qs, st =>
    let r := process_l3_question industry market purpose layer_name category_name
      q transport st
    let rest := process_l3_questions industry market purpose layer_name category_name
      transport qs r.2
    (r.1 :: rest.1, rest.2)

/-- The category loop of `process_layer3_research` (a category is added
only if it has questions). -/
def process_l3_categories (industry market purpose layer_name : String)
    (transport : Nat → String → ApiResponse) :
    List Category → RunState → List L3Category × RunState
  | [], st => ([], st)
  | c :: cs, st =>
    let qr := process_l3_questions industry market purpose layer_name c.name
      transport c.questions st
    let rest := process_l3_categories industry market purpose layer_name transport cs qr.2
    ((if qr.1.isEmpty then [] else [⟨c.name, qr.1⟩]) ++ rest.1, rest.2)

/-- The layer loop of `process_layer3_research` (a layer is added only
if it has categories). -/
def process_l3_layers (industry market purpose : String)
    (transport : Nat → String → ApiResponse) :
    List Layer → RunState → List L3Layer × RunState
  | [], st => ([], st)
  | l :: ls, st =>
    let cr := process_l3_categories industry market purpose l.name transport l.categories st
    let rest := process_l3_layers industry market purpose transport ls cr.2
    ((if cr.1.isEmpty then [] else [⟨l.name, cr.1⟩]) ++ rest.1, rest.2)

/-- `process_layer3_research` with `limit=None`. -/
def process_layer3_research (industry market : String) (data : StructuredResult)
    (transport : Nat → String → ApiResponse) (st : RunState) : L3Results × RunState :=
  let r := process_l3_layers industry market data.purpose transport data.layers st
  (⟨data.purpose, r.1⟩, r.2)

/-! ## Counting and flattening helpers used by the specifications -/

/-- Total number of MainQuestion nodes of a structured document. -/
def countQuestions (d : StructuredResult) : Nat :=
  (d.layers.map (fun l => (l.categories.map (fun c => c.questions.length)).sum)).sum

/-- Number of MainQuestion nodes with a non-empty sub-question list. -/
def countWithSubs (d : StructuredResult) : Nat :=
  (d.layers.map (fun l =>
    (l.categories.map (fun c =>
      (c.questions.filter (fun q => !q.sub_questions.isEmpty)).length)).sum)).sum

/-- Total number of Category nodes of a structured document. -/
def countCategories (d : StructuredResult) : Nat :=
  (d.layers.map (fun l => l.categories.length)).sum

/-- Total number of question nodes in a built layer list
(used for the TreeBuilder claims). -/
def totalQuestions (layers : List Layer) : Nat :=
  (layers.map (fun l => (l.categories.map (fun c => c.questions.length)).sum)).sum

/-- Flatten an input document to its questions in traversal order,
paired with whether each has sub-questions. -/
def flatInput (d : StructuredResult) : List (String × Bool) :=
  (d.layers.map (fun l =>
    (l.categories.map (fun c =>
      c.questions.map (fun q => (q.main_question, !q.sub_questions.isEmpty)))).flatten)).flatten

/-- Flatten a per-question-mode result to its questions in traversal
order, paired with whether each carries a deep-enrichment report. -/
def flatResult (r : QRunResult) : List (String × Bool) :=
  (r.research_results.map (fun l =>
    (l.categories.map (fun c =>
      c.questions.map (fun q =>
        (q.main_question, q.layer4_comprehensive_report.isSome)))).flatten)).flatten

/-- The category at position `(i, j)` of a built layer list (for the
attachment specification; defaults are irrelevant at valid indices). -/
def categoryAt (layers : List Layer) (i j : Nat) : Category :=
  (layers.getD i ⟨"", []⟩).categories.getD j ⟨"", []⟩

/-- The deduplication invariant of the built tree: no two sibling
themes share a label and, within each theme, no two sibling categories
share a label. -/
def distinctLabels (layers : List Layer) : Prop :=
  (layers.map Layer.name).Nodup ∧ ∀ l ∈ layers, (l.categories.map Category.name).Nodup

/-- The locator-match test of the `add_layer4_enhancement` loops: does
any (layer, category, question) triple match exactly. -/
def locatorMatches (r : StoredResults)
    (layer_name category_name main_question : String) : Bool :=
  r.research_results.any (fun l =>
    l.layer_name == layer_name &&
    l.categories.any (fun c =>
      c.category_name == category_name &&
      c.questions.any (fun q => q.main_question == main_question)))

/-! ## Concrete inputs used by counterexamples and witnesses -/

/-- The specification's end-to-end example tree: one theme, one
category, two main questions, the first with sub-questions, the second
without. -/
def exampleTree : StructuredResult :=
  ⟨"Research X",
   [⟨"Auto",
     [⟨"Market",
       [⟨"Why buy EVs?", ["Price", "Range"]⟩,
        ⟨"Why buy EVs? (2)", []⟩]⟩]⟩]⟩

/-- A transport that always succeeds with content `"OK"`. -/
def okTransport : Nat → String → ApiResponse := fun _ _ => .content ("OK")

/-- The initial run state. -/
def st0 : RunState := ⟨0, []⟩

/-- A transport that raises a rate-limit error on the first three
attempts and would succeed on any later attempt. -/
def rateLimit3Transport : Nat → String → ApiResponse :=
  fun n _ => if n < 3 then .exn ("429 rate limit") else .content ("SUCCESS")

/-- A transport that raises a rate-limit error on the first two
attempts and succeeds on the third. -/
def rateLimit2Transport : Nat → String → ApiResponse :=
  fun n _ => if n < 2 then .exn ("429 rate limit") else .content ("SUCCESS")

/-- A transport that always raises a non-rate-limit error. -/
def boomTransport : Nat → String → ApiResponse := fun _ _ => .exn ("boom")

/-- A transport whose first attempt raises a non-rate-limit error and
whose later attempts succeed. -/
def boomThenOkTransport : Nat → String → ApiResponse :=
  fun n _ => if n == 0 then .exn ("boom") else .content ("answer")

/-- A stored results document with a single located question. -/
def storedDoc : StoredResults :=
  ⟨"P", [⟨"T", [⟨"C", [⟨"Q", some ("content"), ["S1"], []⟩]⟩]⟩]⟩

/-- A grid with a purpose row but no cell containing `"Layer"`
anywhere. -/
def gridNoLayerCells : List (List (Option String)) :=
  [[some ("Mục đích của Market Research"), some ("P")]]

/-- A grid whose header row has only two `"Layer"` columns. -/
def gridTwoLayerCols : List (List (Option String)) :=
  [[some ("Mục đích của Market Research"), some ("P")],
   [some ("Layer 1"), some ("Layer 2")],
   [some ("T"), some ("C")]]

/-! ## Helper lemmas -/

theorem modifyAt_map {α β : Type} (g : α → β) (f : α → α)
    (hf : ∀ a, g (f a) = g a) :
    ∀ (ls : List α) (i : Nat), (modifyAt ls i f).map g = ls.map g
  | [], _ => rfl
  | a :: as, 0 => by simp [modifyAt, hf]
  | a :: as, i + 1 => by simp [modifyAt, modifyAt_map g f hf as i]

theorem length_modifyAt {α : Type} (f : α → α) :
    ∀ (ls : List α) (i : Nat), (modifyAt ls i f).length = ls.length
  | [], _ => rfl
  | a :: as, 0 => rfl
  | a :: as, i + 1 => by simp [modifyAt, length_modifyAt f as i]

theorem mem_modifyAt {α : Type} (f : α → α) (d : α) :
    ∀ (ls : List α) (i : Nat), ∀ x ∈ modifyAt ls i f,
      x ∈ ls ∨ (i < ls.length ∧ x = f (ls.getD i d))
  | [], i, x, hx => by simp [modifyAt] at hx
  | a :: as, 0, x, hx => by
    rcases List.mem_cons.mp hx with h | h
    · exact Or.inr ⟨Nat.succ_pos _, by simpa using h⟩
    · exact Or.inl (List.mem_cons_of_mem _ h)
  | a :: as, i + 1, x, hx => by
    rcases List.mem_cons.mp hx with h | h
    · exact Or.inl (h ▸ List.mem_cons_self _ _)
    · rcases mem_modifyAt f d as i x h with h2 | ⟨h2, h3⟩
      · exact Or.inl (List.mem_cons_of_mem _ h2)
      · exact Or.inr ⟨Nat.succ_lt_succ h2, by simpa using h3⟩

theorem getD_modifyAt_self {α : Type} (f : α → α) (d : α) :
    ∀ (ls : List α) (i : Nat), i < ls.length →
      (modifyAt ls i f).getD i d = f (ls.getD i d)
  | [], i, h => by simp at h
  | a :: as, 0, _ => by simp [modifyAt]
  | a :: as, i + 1, h => by
    simpa [modifyAt] using getD_modifyAt_self f d as i (Nat.lt_of_succ_lt_succ h)

theorem getD_modifyAt_ne {α : Type} (f : α → α) (d : α) :
    ∀ (ls : List α) (i j : Nat), i ≠ j →
      (modifyAt ls i f).getD j d = ls.getD j d
  | [], _, _, _ => by simp [modifyAt]
  | a :: as, 0, 0, h => absurd rfl h
  | a :: as, 0, j + 1, _ => by simp [modifyAt]
  | a :: as, i + 1, 0, _ => by simp [modifyAt]
  | a :: as, i + 1, j + 1, h => by
    simpa [modifyAt] using
      getD_modifyAt_ne f d as i j (fun hij => h (by simp [hij]))

theorem sum_map_modifyAt {α : Type} (g : α → Nat) (f : α → α) (d : α) :
    ∀ (ls : List α) (i : Nat), i < ls.length →
      ((modifyAt ls i f).map g).sum + g (ls.getD i d) =
        (ls.map g).sum + g (f (ls.getD i d))
  | [], i, h => by simp at h
  | a :: as, 0, _ => by simp [modifyAt]; omega
  | a :: as, i + 1, h => by
    have ih := sum_map_modifyAt g f d as i (Nat.lt_of_succ_lt_succ h)
    simp [modifyAt] at ih ⊢
    omega

theorem findNameIdx_eq_none {v : String} :
    ∀ {ls : List Layer}, findNameIdx v ls = none → ∀ l ∈ ls, l.name ≠ v
  | [], _, l, hl => by simp at hl
  | a :: as, h, l, hl => by
    by_cases ha : a.name == v
    · simp [findNameIdx, ha] at h
    · rcases List.mem_cons.mp hl with h2 | h2
      · exact h2 ▸ (by simpa using ha)
      · have h3 : findNameIdx v as = none := by
          simpa [findNameIdx, ha, Option.map_eq_none'] using h
        exact findNameIdx_eq_none h3 l h2

theorem findCatIdx_eq_none {v : String} :
    ∀ {cs : List Category}, findCatIdx v cs = none → ∀ c ∈ cs, c.name ≠ v
  | [], _, c, hc => by simp at hc
  | a :: as, h, c, hc => by
    by_cases ha : a.name == v
    · simp [findCatIdx, ha] at h
    · rcases List.mem_cons.mp hc with h2 | h2
      · exact h2 ▸ (by simpa using ha)
      · have h3 : findCatIdx v as = none := by
          simpa [findCatIdx, ha, Option.map_eq_none'] using h
        exact findCatIdx_eq_none h3 c h2

theorem map_eq_self_of_mem {α : Type} {f : α → α} :
    ∀ {ls : List α}, (∀ a ∈ ls, f a = a) → ls.map f = ls
  | [], _ => rfl
  | a :: as, h => by
    have h1 := h a (List.mem_cons_self _ _)
    have h2 := map_eq_self_of_mem (fun x hx => h x (List.mem_cons_of_mem _ hx))
    simp [h1, h2]

theorem call_openai_api_content (transport : Nat → String → ApiResponse)
    (idx : Nat) (prompt s : String) (h : transport idx prompt = .content s) :
    call_openai_api transport idx prompt 3 = (s, [], idx + 1) := by
  simp [call_openai_api, call_attempts, h]

theorem call_openai_api_non_rate_limit (transport : Nat → String → ApiResponse)
    (idx : Nat) (prompt msg : String) (h1 : transport idx prompt = .exn msg)
    (h2 : isRateLimitError msg = false) :
    call_openai_api transport idx prompt 3 = ("API Error: " ++ msg, [], idx + 1) := by
  simp [call_openai_api, call_attempts, h1, h2]

theorem apiCall_content (transport : Nat → String → ApiResponse) (st : RunState)
    (prompt s : String) (h : transport st.idx prompt = .content s) :
    apiCall transport st prompt = (s, ⟨st.idx + 1, st.calls ++ [(prompt, s)]⟩) := by
  simp [apiCall, call_openai_api_content transport st.idx prompt s h]

theorem apiCall_calls_length (transport : Nat → String → ApiResponse) (st : RunState)
    (prompt : String) :
    (apiCall transport st prompt).2.calls.length = st.calls.length + 1 := by
  simp [apiCall]

/-! ## Claim C3 -/

/-- Claim C3, counterexample: with the default maximum of 3, a
transport that returns a rate-limit error on the first 3 attempts and
would succeed on the next attempt does NOT return the successful
content: `call_openai_api` makes only 3 attempts in total (sleeping
5, 10 and 20 seconds) and returns the embedded rate-limit error
string; the would-be successful 4th attempt is never made. -/
theorem claim_C3_counterexample :
    call_openai_api rateLimit3Transport 0 ("p") 3 =
      ("Rate limit error after 3 retries: 429 rate limit", [5, 10, 20], 3) ∧
    (call_openai_api rateLimit3Transport 0 ("p") 3).1 ≠ ("SUCCESS") := by
  decide

/-- Claim C3 (amended): with the default maximum of 3 total attempts,
`EnrichmentClient.complete` on a transport that returns a rate-limit
error on the first 2 attempts and succeeds on the 3rd returns the
successful content after exactly 2 delayed retries with exponential
backoff (base delay 5 seconds × 2^attempt: 5 then 10 seconds). -/
theorem claim_C3 (transport : Nat → String → ApiResponse) (idx : Nat)
    (prompt m1 m2 s : String)
    (h1 : transport idx prompt = .exn m1) (hr1 : isRateLimitError m1 = true)
    (h2 : transport (idx + 1) prompt = .exn m2) (hr2 : isRateLimitError m2 = true)
    (h3 : transport (idx + 2) prompt = .content s) :
    call_openai_api transport idx prompt 3 = (s, [5, 10], idx + 3) := by
  simp [call_openai_api, call_attempts, h1, h2, h3, hr1, hr2]

/-- Claim C3, witness: the amended theorem at a concrete transport that
rate-limits twice and then succeeds. -/
theorem claim_C3_witness :
    call_openai_api rateLimit2Transport 0 ("p") 3 = (("SUCCESS"), [5, 10], 3) :=
  claim_C3 rateLimit2Transport 0 ("p") ("429 rate limit") ("429 rate limit")
    ("SUCCESS") (by decide) (by decide) (by decide) (by decide) (by decide)

/-! ## Claim C4 -/

/-- Claim C4: for every prompt, `EnrichmentClient.complete` on a
transport whose (first) attempt fails with a non-rate-limit error
returns on that first attempt — no retry, no backoff sleep, exactly
one transport attempt consumed — with the formatted `"API Error: ..."`
string embedded as the result value.  The embedding is a total
function returning the string: the source converts the exception into
a return value and never re-raises it to the caller. -/
theorem claim_C4 (transport : Nat → String → ApiResponse) (idx : Nat)
    (prompt msg : String) (h1 : transport idx prompt = .exn msg)
    (h2 : isRateLimitError msg = false) :
    call_openai_api transport idx prompt 3 = ("API Error: " ++ msg, [], idx + 1) :=
  call_openai_api_non_rate_limit transport idx prompt msg h1 h2

/-- Claim C4, witness: the theorem at a transport that always raises a
non-rate-limit error. -/
theorem claim_C4_witness :
    call_openai_api boomTransport 0 ("p") 3 = ("API Error: " ++ "boom", [], 1) :=
  claim_C4 boomTransport 0 ("p") ("boom") (by decide) (by decide)

/-! ## Claim C10 -/

/-- Claim C10: in `process_layer3_research` (the two-call per-question
routine), when the first (prompt-drafting) call fails with a
non-rate-limit error, the embedded `"API Error: ..."` string returned
for that call is recorded as the `generated_prompt` and passed
verbatim as the prompt of the second call, whose output — whatever the
model answers to the error message — is stored as the question's
`layer3_content`; the failed first call does not skip or abort the
second call. -/
theorem claim_C10 (industry market purpose layer_name category_name : String)
    (q : Question) (transport : Nat → String → ApiResponse) (st : RunState)
    (msg : String)
    (h1 : transport st.idx (create_layer3_prompt_request industry market
      layer_name category_name q.main_question purpose) = .exn msg)
    (h2 : isRateLimitError msg = false) :
    process_l3_question industry market purpose layer_name category_name
        q transport st =
      (⟨q.main_question, "API Error: " ++ msg,
        (call_openai_api transport (st.idx + 1) ("API Error: " ++ msg) 3).1,
        q.sub_questions, []⟩,
       ⟨(call_openai_api transport (st.idx + 1) ("API Error: " ++ msg) 3).2.2,
        st.calls ++
          [(create_layer3_prompt_request industry market layer_name category_name
              q.main_question purpose, "API Error: " ++ msg),
           ("API Error: " ++ msg,
            (call_openai_api transport (st.idx + 1) ("API Error: " ++ msg) 3).1)]⟩) := by
  simp [process_l3_question, apiCall,
    call_openai_api_non_rate_limit transport st.idx _ msg h1 h2]

/-- Claim C10, witness: the theorem at a concrete transport whose
first attempt raises `"boom"` and whose second succeeds with
`"answer"`: the second call runs with prompt `"API Error: boom"` and
its output is stored. -/
theorem claim_C10_witness :
    process_l3_question ("Tech") ("VN") ("P") ("T") ("C") ⟨("Q"), []⟩
        boomThenOkTransport st0 =
      (⟨("Q"), "API Error: " ++ "boom",
        (call_openai_api boomThenOkTransport (st0.idx + 1) ("API Error: " ++ "boom") 3).1,
        [], []⟩,
       ⟨(call_openai_api boomThenOkTransport (st0.idx + 1) ("API Error: " ++ "boom") 3).2.2,
        st0.calls ++
          [(create_layer3_prompt_request ("Tech") ("VN") ("T") ("C") ("Q") ("P"),
            "API Error: " ++ "boom"),
           ("API Error: " ++ "boom",
            (call_openai_api boomThenOkTransport (st0.idx + 1) ("API Error: " ++ "boom") 3).1)]⟩) :=
  claim_C10 ("Tech") ("VN") ("P") ("T") ("C") ⟨("Q"), []⟩ boomThenOkTransport st0
    ("boom") (by decide) (by decide)

/-! ## Claim C8 -/

theorem process_categories_l3_calls (industry market purpose layer_name : String)
    (transport : Nat → String → ApiResponse) :
    ∀ (cs : List Category) (st : RunState),
      (process_categories_l3 industry market purpose layer_name transport cs st).2.calls.length
        = st.calls.length + cs.length
  | [], st => by simp [process_categories_l3]
  | c :: cs, st => by
    simp [process_categories_l3, process_category_l3,
      process_categories_l3_calls industry market purpose layer_name transport cs,
      apiCall]
    omega

theorem process_layers_l3_calls (industry market purpose : String)
    (transport : Nat → String → ApiResponse) :
    ∀ (ls : List Layer) (st : RunState),
      (process_layers_l3 industry market purpose transport ls st).2.calls.length
        = st.calls.length + (ls.map (fun l => l.categories.length)).sum
  | [], st => by simp [process_layers_l3]
  | l :: ls, st => by
    simp [process_layers_l3,
      process_layers_l3_calls industry market purpose transport ls,
      process_categories_l3_calls industry market purpose l.name transport l.categories st]
    omega

/-- Claim C8: running StageRunner in per-category
(category-comprehensive) mode over a tree containing C Category nodes
issues exactly C EnrichmentClient calls in total — one single direct
call per category — independent of how many MainQuestion nodes the
categories contain. -/
theorem claim_C8 (industry market : String) (data : StructuredResult)
    (purpose : String) (transport : Nat → String → ApiResponse) (st : RunState) :
    (run_layer3_category_analysis industry market data purpose transport st).2.calls.length
      = st.calls.length + countCategories data := by
  simp [run_layer3_category_analysis, countCategories,
    process_layers_l3_calls industry market purpose transport data.layers st]

/-! ## Claim C5 -/

/-- Claim C5, counterexample: a grid containing a purpose row but no
cell matching the `"Layer"` pattern at all — hence fewer than 3
matching header cells — does not fail: no header row is located, the
layer parsing is skipped, and the converter succeeds, writing an
output document with an empty `layers` list. -/
theorem claim_C5_counterexample :
    convert_excel_to_json gridNoLayerCells none = some ⟨("P"), []⟩ := by
  decide

/-- Claim C5 (amended): for every grid in which a layer header row IS
located (a purpose row exists and some later row contains a `"Layer"`
cell) but fewer than 3 of that row's cells match the `"Layer"`
pattern, `TreeBuilder.build` fails (returns `False`) and writes no
output — no partial tree is produced.  (When no `"Layer"` cell exists
at all, the conversion instead succeeds with an empty `layers` list.) -/
theorem claim_C5 (grid : List (List (Option String))) (custom : Option String)
    (pr hr : Nat) (h1 : findPurposeRow grid = some pr)
    (h2 : findHeaderRow grid pr = some hr)
    (h3 : (layer_columns_of (grid.getD hr [])).length < 3) :
    convert_excel_to_json grid custom = none := by
  have h4 : (layer_columns_of (grid[hr]?.getD [])).length < 3 := by
    simpa [List.getD] using h3
  simp [convert_excel_to_json, h1, h2, h4]

/-- Claim C5, witness: the amended theorem at a concrete grid whose
header row has exactly two `"Layer"` columns. -/
theorem claim_C5_witness :
    convert_excel_to_json gridTwoLayerCols none = none :=
  claim_C5 gridTwoLayerCols none 0 1 (by decide) (by decide) (by decide)

/-! ## Claim C2 -/

theorem locator_no_match_spec {r : StoredResults} {lname cname mname : String}
    (h : locatorMatches r lname cname mname = false) :
    ∀ l ∈ r.research_results, l.layer_name = lname →
      ∀ c ∈ l.categories, c.category_name = cname →
        ∀ q ∈ c.questions, q.main_question ≠ mname := by
  intro l hl hln c hc hcn q hq hqn
  rw [locatorMatches, List.any_eq_false] at h
  have h2 := h l hl
  simp [hln] at h2
  exact h2 c hc hcn q hq hqn

theorem findContentInQuestions_no_match (m : String) (qs : List StoredQuestion)
    (acc : String) (h : ∀ q ∈ qs, q.main_question ≠ m) :
    findContentInQuestions m qs acc = acc := by
  have hf : qs.find? (fun q => q.main_question == m) = none := by
    rw [List.find?_eq_none]
    intro q hq
    simp [h q hq]
  simp [findContentInQuestions, hf]

theorem find_content_cats_no_match (cname m : String) :
    ∀ (cs : List StoredCategory) (acc : String),
      (∀ c ∈ cs, c.category_name = cname → ∀ q ∈ c.questions, q.main_question ≠ m) →
      cs.foldl (fun a c =>
        if c.category_name == cname then findContentInQuestions m c.questions a
        else a) acc = acc
  | [], acc, _ => rfl
  | c :: cs, acc, h => by
    have hrest := find_content_cats_no_match cname m cs acc
      (fun x hx => h x (List.mem_cons_of_mem _ hx))
    rw [List.foldl_cons]
    by_cases hc : (c.category_name == cname) = true
    · rw [if_pos hc, findContentInQuestions_no_match m c.questions acc
        (h c (List.mem_cons_self _ _) (by simpa using hc))]
      exact hrest
    · rw [if_neg hc]
      exact hrest

theorem find_content_layers_no_match (lname cname m : String) :
    ∀ (ls : List StoredLayer) (acc : String),
      (∀ l ∈ ls, l.layer_name = lname →
        ∀ c ∈ l.categories, c.category_name = cname →
          ∀ q ∈ c.questions, q.main_question ≠ m) →
      ls.foldl (fun acc l =>
        if l.layer_name == lname then
          l.categories.foldl (fun a c =>
            if c.category_name == cname then findContentInQuestions m c.questions a
            else a) acc
        else acc) acc = acc
  | [], acc, _ => rfl
  | l :: ls, acc, h => by
    have hrest := find_content_layers_no_match lname cname m ls acc
      (fun x hx => h x (List.mem_cons_of_mem _ hx))
    rw [List.foldl_cons]
    by_cases hl : (l.layer_name == lname) = true
    · rw [if_pos hl, find_content_cats_no_match cname m l.categories acc
        (h l (List.mem_cons_self _ _) (by simpa using hl))]
      exact hrest
    · rw [if_neg hl]
      exact hrest

theorem find_layer3_content_no_match (r : StoredResults) (lname cname m : String)
    (h : locatorMatches r lname cname m = false) :
    find_layer3_content r lname cname m = "" := by
  exact find_content_layers_no_match lname cname m r.research_results ("")
    (locator_no_match_spec h)

theorem updateFirstQuestion_no_match (m sq ct : String) :
    ∀ (qs : List StoredQuestion), (∀ q ∈ qs, q.main_question ≠ m) →
      updateFirstQuestion m sq ct qs = qs
  | [], _ => rfl
  | q :: qs, h => by
    have hq : (q.main_question == m) = false := by
      simp [h q (List.mem_cons_self _ _)]
    rw [updateFirstQuestion, if_neg (by simp [hq])]
    rw [updateFirstQuestion_no_match m sq ct qs
      (fun x hx => h x (List.mem_cons_of_mem _ hx))]

theorem updateStored_no_match (r : StoredResults) (lname cname m sq ct : String)
    (h : locatorMatches r lname cname m = false) :
    updateStored r lname cname m sq ct = r := by
  have hspec := locator_no_match_spec h
  have hmap : r.research_results.map (fun l =>
      if l.layer_name == lname then
        { l with categories := l.categories.map (fun c =>
            if c.category_name == cname then
              { c with questions := updateFirstQuestion m sq ct c.questions }
            else c) }
      else l) = r.research_results := by
    apply map_eq_self_of_mem
    intro l hl
    by_cases hln : (l.layer_name == lname) = true
    · rw [if_pos hln]
      have hcs := hspec l hl (by simpa using hln)
      have hcat : l.categories.map (fun c =>
          if c.category_name == cname then
            { c with questions := updateFirstQuestion m sq ct c.questions }
          else c) = l.categories := by
        apply map_eq_self_of_mem
        intro c hc
        by_cases hcn : (c.category_name == cname) = true
        · rw [if_pos hcn, updateFirstQuestion_no_match m sq ct c.questions
            (hcs c hc (by simpa using hcn))]
        · rw [if_neg hcn]
      rw [hcat]
    · rw [if_neg hln]
  rw [updateStored, hmap]

/-- Claim C2 (amended): for every stored result tree and every locator
that matches no node, `add_layer4_enhancement` issues no API call and
mutates no node — the document written back is equal to the loaded one
— but it does NOT leave the stored file untouched or signal an error:
it unconditionally performs its one write (re-serializing the loaded
tree over the stored file) and returns the output path exactly as on
success. -/
theorem claim_C2 (industry market : String) (stored : StoredResults) (path : String)
    (lname cname mname sq : String) (transport : Nat → String → ApiResponse)
    (st : RunState) (h : locatorMatches stored lname cname mname = false) :
    add_layer4_enhancement industry market stored path lname cname mname sq
        transport st = ⟨stored, 1, path, st⟩ := by
  rw [add_layer4_enhancement, enhance_to_layer4,
    find_layer3_content_no_match stored lname cname mname h]
  rw [if_pos (by rfl)]
  rw [updateStored_no_match stored lname cname mname sq _ h]

/-- Claim C2, counterexample: on a stored tree and a locator matching
no node, `add_layer4_enhancement` still performs its (one) write to
the stored path and returns the output path as a normal success value
— no `NotFoundError` exists in the routine and "nothing is written on
failure" does not hold. -/
theorem claim_C2_counterexample :
    (add_layer4_enhancement ("Tech") ("VN") storedDoc ("res.json")
      ("X") ("Y") ("Z") ("S") okTransport st0).writesPerformed = 1 ∧
    (add_layer4_enhancement ("Tech") ("VN") storedDoc ("res.json")
      ("X") ("Y") ("Z") ("S") okTransport st0).returned = ("res.json") := by
  decide

/-- Claim C2, witness: the amended theorem at a concrete stored tree
and non-matching locator. -/
theorem claim_C2_witness :
    locatorMatches storedDoc ("X") ("Y") ("Z") = false ∧
    add_layer4_enhancement ("Tech") ("VN") storedDoc ("res2.json")
        ("X") ("Y") ("Z") ("S") okTransport st0 = ⟨storedDoc, 1, ("res2.json"), st0⟩ :=
  ⟨by decide,
   claim_C2 ("Tech") ("VN") storedDoc ("res2.json") ("X") ("Y") ("Z") ("S")
     okTransport st0 (by decide)⟩

/-! ## Claim C9 -/

theorem process_question_main (industry market purpose lname cname : String)
    (q : Question) (transport : Nat → String → ApiResponse) (st : RunState) :
    (process_question industry market purpose lname cname q transport st).1.main_question
      = q.main_question := by
  by_cases hq : q.sub_questions.isEmpty <;> simp [process_question, hq]

theorem process_question_report (industry market purpose lname cname : String)
    (q : Question) (transport : Nat → String → ApiResponse) (st : RunState) :
    (process_question industry market purpose lname cname q transport
      st).1.layer4_comprehensive_report.isSome = !q.sub_questions.isEmpty := by
  by_cases hq : q.sub_questions.isEmpty <;> simp [process_question, hq]

theorem process_questions_map (industry market purpose lname cname : String)
    (transport : Nat → String → ApiResponse) :
    ∀ (qs : List Question) (st : RunState),
      (process_questions industry market purpose lname cname transport qs st).1.map
          (fun r => (r.main_question, r.layer4_comprehensive_report.isSome))
        = qs.map (fun q => (q.main_question, !q.sub_questions.isEmpty))
  | [], st => by simp [process_questions]
  | q :: qs, st => by
    simp [process_questions,
      process_question_main industry market purpose lname cname q transport st,
      process_question_report industry market purpose lname cname q transport st,
      process_questions_map industry market purpose lname cname transport qs]

theorem process_questions_length (industry market purpose lname cname : String)
    (transport : Nat → String → ApiResponse) (qs : List Question) (st : RunState) :
    (process_questions industry market purpose lname cname transport qs st).1.length
      = qs.length := by
  have h := congrArg List.length
    (process_questions_map industry market purpose lname cname transport qs st)
  simpa using h

theorem process_categories_l4_flat (industry market purpose lname : String)
    (transport : Nat → String → ApiResponse) :
    ∀ (cs : List Category) (st : RunState),
      ((process_categories_l4 industry market purpose lname transport cs st).1.map
          (fun c => c.questions.map
            (fun r => (r.main_question, r.layer4_comprehensive_report.isSome)))).flatten
        = (cs.map (fun c => c.questions.map
            (fun q => (q.main_question, !q.sub_questions.isEmpty)))).flatten
  | [], st => by simp [process_categories_l4]
  | c :: cs, st => by
    have hmap := process_questions_map industry market purpose lname c.name transport
      c.questions st
    have hrest := process_categories_l4_flat industry market purpose lname transport cs
      (process_questions industry market purpose lname c.name transport c.questions st).2
    by_cases hq : (process_questions industry market purpose lname c.name transport
        c.questions st).1.isEmpty
    · have hq2 : (process_questions industry market purpose lname c.name transport
          c.questions st).1 = [] := by simpa [List.isEmpty_iff] using hq
      have hin : c.questions.map (fun q => (q.main_question, !q.sub_questions.isEmpty))
          = [] := by rw [← hmap, hq2]; rfl
      simp [process_categories_l4, hq, hrest, hin]
    · simp [process_categories_l4, hq, hrest, hmap]

theorem process_layers_l4_flat (industry market purpose : String)
    (transport : Nat → String → ApiResponse) :
    ∀ (ls : List Layer) (st : RunState),
      ((process_layers_l4 industry market purpose transport ls st).1.map
          (fun l => (l.categories.map (fun c => c.questions.map
            (fun r => (r.main_question, r.layer4_comprehensive_report.isSome)))).flatten)).flatten
        = (ls.map (fun l => (l.categories.map (fun c => c.questions.map
            (fun q => (q.main_question, !q.sub_questions.isEmpty)))).flatten)).flatten
  | [], st => by simp [process_layers_l4]
  | l :: ls, st => by
    have hcats := process_categories_l4_flat industry market purpose l.name transport
      l.categories st
    have hrest := process_layers_l4_flat industry market purpose transport ls
      (process_categories_l4 industry market purpose l.name transport l.categories st).2
    by_cases hc : (process_categories_l4 industry market purpose l.name transport
        l.categories st).1.isEmpty
    · have hc2 : (process_categories_l4 industry market purpose l.name transport
          l.categories st).1 = [] := by simpa [List.isEmpty_iff] using hc
      have hin : (l.categories.map (fun c => c.questions.map
          (fun q => (q.main_question, !q.sub_questions.isEmpty)))).flatten = [] := by
        rw [← hcats, hc2]; rfl
      simp [process_layers_l4, hc, hrest, hin]
    · simp [process_layers_l4, hc, hrest, hcats]

/-- Claim C9: running StageRunner in per-question mode (non-testing)
over any tree produces, in traversal order, exactly one result node
per input MainQuestion (so `base_content` — the mandatory
`layer3_content` string field — is produced on all N of them), and a
`layer4_comprehensive_report` on exactly those whose input
sub-question list is non-empty; a node without sub-questions gets
none, and the run still completes normally. -/
theorem claim_C9 (industry market : String) (data : StructuredResult)
    (purpose : String) (transport : Nat → String → ApiResponse) (st : RunState) :
    flatResult (run_layer4_detailed_analysis industry market data purpose transport st).1
      = flatInput data := by
  simpa [flatResult, flatInput, run_layer4_detailed_analysis] using
    process_layers_l4_flat industry market purpose transport data.layers st

/-! ## Claim C1 -/

theorem find_subs_temp (purpose lname cname : String) (q : Question)
    (content : String) :
    find_layer3_content_subs (tempStructure purpose lname cname q content)
        lname cname q.main_question = (content, q.sub_questions) := by
  simp [find_layer3_content_subs, tempStructure, findContentSubsInQuestions,
    contentOrEmpty, List.find?]

theorem process_question_calls (industry market purpose lname cname : String)
    (q : Question) (transport : Nat → String → ApiResponse)
    (Hsucc : ∀ n p, ∃ s, transport n p = .content s ∧ s ≠ "") (st : RunState) :
    (process_question industry market purpose lname cname q transport st).2.calls.length
      = st.calls.length + (if q.sub_questions.isEmpty then 1 else 2) := by
  obtain ⟨s, hs, hne⟩ := Hsucc st.idx (create_layer3_prompt_request industry market
    lname cname q.main_question purpose)
  have h1 := apiCall_content transport st _ s hs
  by_cases hq : q.sub_questions.isEmpty
  · simp [process_question, hq, h1]
  · have hfind := find_subs_temp purpose lname cname q s
    simp [process_question, hq, h1, enhance_to_layer4_comprehensive, hfind, hne,
      apiCall_calls_length]

theorem process_questions_calls (industry market purpose lname cname : String)
    (transport : Nat → String → ApiResponse)
    (Hsucc : ∀ n p, ∃ s, transport n p = .content s ∧ s ≠ "") :
    ∀ (qs : List Question) (st : RunState),
      (process_questions industry market purpose lname cname transport qs st).2.calls.length
        = st.calls.length + qs.length
          + (qs.filter (fun q => !q.sub_questions.isEmpty)).length
  | [], st => by simp [process_questions]
  | q :: qs, st => by
    have h1 := process_question_calls industry market purpose lname cname q transport
      Hsucc st
    have h2 := process_questions_calls industry market purpose lname cname transport
      Hsucc qs
      (process_question industry market purpose lname cname q transport st).2
    by_cases hq : q.sub_questions.isEmpty
    · simp [process_questions, h2, hq] at h1 ⊢
      omega
    · simp [process_questions, h2, hq] at h1 ⊢
      omega

theorem process_categories_l4_calls (industry market purpose lname : String)
    (transport : Nat → String → ApiResponse)
    (Hsucc : ∀ n p, ∃ s, transport n p = .content s ∧ s ≠ "") :
    ∀ (cs : List Category) (st : RunState),
      (process_categories_l4 industry market purpose lname transport cs st).2.calls.length
        = st.calls.length + (cs.map (fun c => c.questions.length)).sum
          + (cs.map (fun c =>
              (c.questions.filter (fun q => !q.sub_questions.isEmpty)).length)).sum
  | [], st => by simp [process_categories_l4]
  | c :: cs, st => by
    have h1 := process_questions_calls industry market purpose lname c.name transport
      Hsucc c.questions st
    have h2 := process_categories_l4_calls industry market purpose lname transport
      Hsucc cs
      (process_questions industry market purpose lname c.name transport c.questions st).2
    simp [process_categories_l4, h2, h1]
    omega

theorem process_layers_l4_calls (industry market purpose : String)
    (transport : Nat → String → ApiResponse)
    (Hsucc : ∀ n p, ∃ s, transport n p = .content s ∧ s ≠ "") :
    ∀ (ls : List Layer) (st : RunState),
      (process_layers_l4 industry market purpose transport ls st).2.calls.length
        = st.calls.length
          + (ls.map (fun l => (l.categories.map (fun c => c.questions.length)).sum)).sum
          + (ls.map (fun l => (l.categories.map (fun c =>
              (c.questions.filter (fun q => !q.sub_questions.isEmpty)).length)).sum)).sum
  | [], st => by simp [process_layers_l4]
  | l :: ls, st => by
    have h1 := process_categories_l4_calls industry market purpose l.name transport
      Hsucc l.categories st
    have h2 := process_layers_l4_calls industry market purpose transport Hsucc ls
      (process_categories_l4 industry market purpose l.name transport l.categories st).2
    simp [process_layers_l4, h2, h1]
    omega

/-- Claim C1, counterexample: on the specification's example tree
(2 MainQuestions under one theme and category, the first with
sub-questions) with a transport that always succeeds, a per-question
run issues 3 EnrichmentClient calls in total — one single base call
per question (whose output is stored directly as the node's
`layer3_content`, with no meta-prompt indirection) plus one
deep-enrichment call for the first question — not the 2×2+1 = 5 calls
the claim derives from a two-call-per-question sequence. -/
theorem claim_C1_counterexample :
    (run_layer4_detailed_analysis ("Tech") ("VN") exampleTree exampleTree.purpose
      okTransport st0).2.calls.length = 3 ∧
    (run_layer4_detailed_analysis ("Tech") ("VN") exampleTree exampleTree.purpose
      okTransport st0).2.calls.length ≠ 5 := by
  decide

/-- Claim C1 (amended): in per-question mode (non-testing), for every
MainQuestion work unit StageRunner calls EnrichmentClient exactly ONCE
for the base answer — the single call's output is stored as the node's
`layer3_content` — plus exactly one further deep-enrichment call for
each question with a non-empty sub-question list (given a transport
whose responses are successful and non-empty), so a tree with N
MainQuestions of which K have sub-labels issues N + K calls; the
example tree issues 2 + 1 = 3 calls total.  (The two-call
draft-then-execute indirection exists only in the separate
`process_layer3_research` routine, which performs no deep
enrichment.) -/
theorem claim_C1 (industry market : String) (data : StructuredResult)
    (purpose : String) (transport : Nat → String → ApiResponse) (st : RunState)
    (Hsucc : ∀ n p, ∃ s, transport n p = .content s ∧ s ≠ "") :
    (run_layer4_detailed_analysis industry market data purpose transport st).2.calls.length
      = st.calls.length + countQuestions data + countWithSubs data := by
  simpa [run_layer4_detailed_analysis, countQuestions, countWithSubs] using
    process_layers_l4_calls industry market purpose transport Hsucc data.layers st

/-- Claim C1, witness: the amended theorem at the example tree and the
always-successful transport: 0 + 2 + 1 = 3 calls. -/
theorem claim_C1_witness :
    (run_layer4_detailed_analysis ("Tech") ("VN") exampleTree exampleTree.purpose
      okTransport st0).2.calls.length
      = st0.calls.length + countQuestions exampleTree + countWithSubs exampleTree :=
  claim_C1 ("Tech") ("VN") exampleTree exampleTree.purpose okTransport st0
    (fun _ _ => ⟨("OK"), rfl, by decide⟩)

/-! ## Claims C6 and C7: TreeBuilder invariants -/

theorem getD_mem {α : Type} (d : α) :
    ∀ (ls : List α) (i : Nat), i < ls.length → ls.getD i d ∈ ls
  | [], i, h => absurd h (by simp)
  | a :: as, 0, _ => List.mem_cons_self _ _
  | a :: as, i + 1, h => by
    have := getD_mem d as i (Nat.lt_of_succ_lt_succ h)
    simpa [List.getD] using List.mem_cons_of_mem a (by simpa [List.getD] using this)

theorem updateLevel_none (st : BuildState) (lvl : Nat) :
    updateLevel st lvl none = st := rfl

theorem updateLevel_zero_found (st : BuildState) (v : String) (i : Nat)
    (h : findNameIdx v st.layers = some i) :
    updateLevel st 0 (some v) = { st with stack0 := some i } := by
  simp [updateLevel, h]

theorem updateLevel_zero_new (st : BuildState) (v : String)
    (h : findNameIdx v st.layers = none) :
    updateLevel st 0 (some v) =
      { st with layers := st.layers ++ [⟨v, []⟩], stack0 := some st.layers.length } := by
  simp [updateLevel, h]

theorem updateLevel_one_unset (st : BuildState) (v : String) (h : st.stack0 = none) :
    updateLevel st 1 (some v) = st := by
  simp [updateLevel, h]

theorem updateLevel_one_found (st : BuildState) (v : String) (i j : Nat)
    (h0 : st.stack0 = some i)
    (h : findCatIdx v (st.layers.getD i ⟨"", []⟩).categories = some j) :
    updateLevel st 1 (some v) = { st with stack1 := some (i, j) } := by
  simp only [List.getD, List.get?_eq_getElem?] at h
  simp [updateLevel, h0, h]

theorem updateLevel_one_new (st : BuildState) (v : String) (i : Nat)
    (h0 : st.stack0 = some i)
    (h : findCatIdx v (st.layers.getD i ⟨"", []⟩).categories = none) :
    updateLevel st 1 (some v) =
      ⟨appendCategory st.layers i v, st.stack0,
        some (i, (st.layers.getD i ⟨"", []⟩).categories.length), st.stack2⟩ := by
  simp only [List.getD, List.get?_eq_getElem?] at h
  simp [updateLevel, h0, h, List.getD]

theorem updateLevel_two_unset (st : BuildState) (v : String) (h : st.stack1 = none) :
    updateLevel st 2 (some v) = st := by
  simp [updateLevel, h]

theorem updateLevel_two (st : BuildState) (v : String) (i j : Nat)
    (h : st.stack1 = some (i, j)) :
    updateLevel st 2 (some v) =
      ⟨appendQuestion st.layers i j v, st.stack0, st.stack1,
        some (i, j,
          ((st.layers.getD i ⟨"", []⟩).categories.getD j ⟨"", []⟩).questions.length)⟩ := by
  simp [updateLevel, h, List.getD]

theorem updateLevel_hi_unset (st : BuildState) (v : String) (lvl : Nat)
    (hlvl : 3 ≤ lvl) (h : st.stack2 = none) : updateLevel st lvl (some v) = st := by
  have e0 : (lvl == 0) = false := by simp; omega
  have e1 : (lvl == 1) = false := by simp; omega
  have e2 : (lvl == 2) = false := by simp; omega
  simp [updateLevel, e0, e1, e2, h]

theorem updateLevel_hi (st : BuildState) (v : String) (lvl i j k : Nat)
    (hlvl : 3 ≤ lvl) (h : st.stack2 = some (i, j, k)) :
    updateLevel st lvl (some v) =
      ⟨appendSubQuestion st.layers i j k v, st.stack0, st.stack1, st.stack2⟩ := by
  have e0 : (lvl == 0) = false := by simp; omega
  have e1 : (lvl == 1) = false := by simp; omega
  have e2 : (lvl == 2) = false := by simp; omega
  simp [updateLevel, e0, e1, e2, h]

theorem appendCategory_map_name (layers : List Layer) (i : Nat) (v : String) :
    (appendCategory layers i v).map Layer.name = layers.map Layer.name := by
  unfold appendCategory
  apply modifyAt_map
  intro a
  rfl

theorem appendQuestion_map_name (layers : List Layer) (i j : Nat) (v : String) :
    (appendQuestion layers i j v).map Layer.name = layers.map Layer.name := by
  unfold appendQuestion
  apply modifyAt_map
  intro a
  rfl

theorem appendSubQuestion_map_name (layers : List Layer) (i j k : Nat) (v : String) :
    (appendSubQuestion layers i j k v).map Layer.name = layers.map Layer.name := by
  unfold appendSubQuestion
  apply modifyAt_map
  intro a
  rfl

theorem mem_appendCategory (layers : List Layer) (i : Nat) (v : String) :
    ∀ l ∈ appendCategory layers i v, l ∈ layers ∨
      (i < layers.length ∧
        l = ⟨(layers.getD i ⟨"", []⟩).name,
          (layers.getD i ⟨"", []⟩).categories ++ [⟨v, []⟩]⟩) := by
  intro l hl
  unfold appendCategory at hl
  rcases mem_modifyAt _ ⟨"", []⟩ layers i l hl with h2 | ⟨hlen, h2⟩
  · exact Or.inl h2
  · exact Or.inr ⟨hlen, h2⟩

theorem mem_appendQuestion (layers : List Layer) (i j : Nat) (v : String) :
    ∀ l ∈ appendQuestion layers i j v, l ∈ layers ∨
      (i < layers.length ∧
        l = ⟨(layers.getD i ⟨"", []⟩).name,
          modifyAt (layers.getD i ⟨"", []⟩).categories j
            (fun c => ⟨c.name, c.questions ++ [⟨v, []⟩]⟩)⟩) := by
  intro l hl
  unfold appendQuestion at hl
  rcases mem_modifyAt _ ⟨"", []⟩ layers i l hl with h2 | ⟨hlen, h2⟩
  · exact Or.inl h2
  · exact Or.inr ⟨hlen, h2⟩

theorem mem_appendSubQuestion (layers : List Layer) (i j k : Nat) (v : String) :
    ∀ l ∈ appendSubQuestion layers i j k v, l ∈ layers ∨
      (i < layers.length ∧
        l = ⟨(layers.getD i ⟨"", []⟩).name,
          modifyAt (layers.getD i ⟨"", []⟩).categories j
            (fun c => ⟨c.name,
              modifyAt c.questions k (fun q => ⟨q.main_question, q.sub_questions ++ [v]⟩)⟩)⟩) := by
  intro l hl
  unfold appendSubQuestion at hl
  rcases mem_modifyAt _ ⟨"", []⟩ layers i l hl with h2 | ⟨hlen, h2⟩
  · exact Or.inl h2
  · exact Or.inr ⟨hlen, h2⟩

theorem updateLevel_distinct (st : BuildState) (lvl : Nat) (v : Option String)
    (h : distinctLabels st.layers) : distinctLabels (updateLevel st lvl v).layers := by
  cases v with
  | none => exact h
  | some s =>
    match lvl with
    | 0 =>
      cases hfind : findNameIdx s st.layers with
      | some i => rw [updateLevel_zero_found st s i hfind]; exact h
      | none =>
        rw [updateLevel_zero_new st s hfind]
        constructor
        · rw [List.map_append, List.nodup_append]
          refine ⟨h.1, by simp, ?_⟩
          intro a ha hb
          simp at hb
          subst hb
          rcases List.mem_map.mp ha with ⟨l, hl, hname⟩
          exact findNameIdx_eq_none hfind l hl hname
        · intro l hl
          rcases List.mem_append.mp hl with h2 | h2
          · exact h.2 l h2
          · simp at h2
            subst h2
            simp
    | 1 =>
      cases hst : st.stack0 with
      | none => rw [updateLevel_one_unset st s hst]; exact h
      | some i =>
        cases hfind : findCatIdx s (st.layers.getD i ⟨"", []⟩).categories with
        | some j => rw [updateLevel_one_found st s i j hst hfind]; exact h
        | none =>
          rw [updateLevel_one_new st s i hst hfind]
          constructor
          · rw [show (⟨appendCategory st.layers i s, st.stack0,
              some (i, (st.layers.getD i ⟨"", []⟩).categories.length),
              st.stack2⟩ : BuildState).layers = appendCategory st.layers i s from rfl]
            rw [appendCategory_map_name]
            exact h.1
          · intro l hl
            rcases mem_appendCategory st.layers i s l hl with h2 | ⟨hlen, h2⟩
            · exact h.2 l h2
            · subst h2
              have hnod := h.2 _ (getD_mem ⟨"", []⟩ st.layers i hlen)
              rw [show (⟨(st.layers.getD i ⟨"", []⟩).name,
                (st.layers.getD i ⟨"", []⟩).categories ++ [⟨s, []⟩]⟩ : Layer).categories
                = (st.layers.getD i ⟨"", []⟩).categories ++ [⟨s, []⟩] from rfl]
              rw [List.map_append, List.nodup_append]
              refine ⟨hnod, by simp, ?_⟩
              intro a ha hb
              simp at hb
              subst hb
              rcases List.mem_map.mp ha with ⟨c, hc, hname⟩
              exact findCatIdx_eq_none hfind c hc hname
    | 2 =>
      cases hst : st.stack1 with
      | none => rw [updateLevel_two_unset st s hst]; exact h
      | some p =>
        obtain ⟨i, j⟩ := p
        rw [updateLevel_two st s i j hst]
        constructor
        · rw [show (⟨appendQuestion st.layers i j s, st.stack0, st.stack1,
            some (i, j, ((st.layers.getD i ⟨"", []⟩).categories.getD j
              ⟨"", []⟩).questions.length)⟩ : BuildState).layers
            = appendQuestion st.layers i j s from rfl]
          rw [appendQuestion_map_name]
          exact h.1
        · intro l hl
          rcases mem_appendQuestion st.layers i j s l hl with h2 | ⟨hlen, h2⟩
          · exact h.2 l h2
          · subst h2
            have hnod := h.2 _ (getD_mem ⟨"", []⟩ st.layers i hlen)
            rw [show (⟨(st.layers.getD i ⟨"", []⟩).name,
              modifyAt (st.layers.getD i ⟨"", []⟩).categories j
                (fun c => ⟨c.name, c.questions ++ [⟨s, []⟩]⟩)⟩ : Layer).categories
              = modifyAt (st.layers.getD i ⟨"", []⟩).categories j
                (fun c => ⟨c.name, c.questions ++ [⟨s, []⟩]⟩) from rfl]
            have heq := modifyAt_map (α := Category) Category.name
              (fun c => ⟨c.name, c.questions ++ [(⟨s, []⟩ : Question)]⟩) (fun _ => rfl)
              (st.layers.getD i ⟨"", []⟩).categories j
            rw [heq]
            exact hnod
    | (n + 3) =>
      cases hst : st.stack2 with
      | none => rw [updateLevel_hi_unset st s (n + 3) (by omega) hst]; exact h
      | some t =>
        obtain ⟨i, j, k⟩ := t
        rw [updateLevel_hi st s (n + 3) i j k (by omega) hst]
        constructor
        · rw [show (⟨appendSubQuestion st.layers i j k s, st.stack0, st.stack1,
            st.stack2⟩ : BuildState).layers = appendSubQuestion st.layers i j k s from rfl]
          rw [appendSubQuestion_map_name]
          exact h.1
        · intro l hl
          rcases mem_appendSubQuestion st.layers i j k s l hl with h2 | ⟨hlen, h2⟩
          · exact h.2 l h2
          · subst h2
            have hnod := h.2 _ (getD_mem ⟨"", []⟩ st.layers i hlen)
            rw [show (⟨(st.layers.getD i ⟨"", []⟩).name,
              modifyAt (st.layers.getD i ⟨"", []⟩).categories j
                (fun c => ⟨c.name, modifyAt c.questions k
                  (fun q => ⟨q.main_question, q.sub_questions ++ [s]⟩)⟩)⟩ : Layer).categories
              = modifyAt (st.layers.getD i ⟨"", []⟩).categories j
                (fun c => ⟨c.name, modifyAt c.questions k
                  (fun q => ⟨q.main_question, q.sub_questions ++ [s]⟩)⟩) from rfl]
            have heq := modifyAt_map (α := Category) Category.name
              (fun c => ⟨c.name, modifyAt c.questions k
                (fun q => ⟨q.main_question, q.sub_questions ++ [s]⟩)⟩) (fun _ => rfl)
              (st.layers.getD i ⟨"", []⟩).categories j
            rw [heq]
            exact hnod

theorem foldRange_distinct (vals : List (Option String)) :
    ∀ (lvls : List Nat) (st : BuildState), distinctLabels st.layers →
      distinctLabels (lvls.foldl
        (fun s lvl => updateLevel s lvl (vals.getD lvl none)) st).layers
  | [], st, h => h
  | lvl :: lvls, st, h => by
    rw [List.foldl_cons]
    exact foldRange_distinct vals lvls _ (updateLevel_distinct st lvl _ h)

theorem processRow_distinct (st : BuildState) (vals : List (Option String))
    (h : distinctLabels st.layers) : distinctLabels (processRow st vals).layers := by
  unfold processRow
  cases hd : deepestLevel vals with
  | none => exact h
  | some d => exact foldRange_distinct vals (List.range (d + 1)) st h

theorem buildRows_distinct (cols : List Nat) :
    ∀ (rows : List (List (Option String))) (st : BuildState),
      distinctLabels st.layers →
      distinctLabels (rows.foldl (fun st row =>
        if row.all (fun c => c.isNone) then st
        else processRow st (rowLayerValues cols row)) st).layers
  | [], st, h => h
  | row :: rows, st, h => by
    rw [List.foldl_cons]
    by_cases hr : (row.all (fun c => c.isNone)) = true
    · rw [if_pos hr]
      exact buildRows_distinct cols rows st h
    · rw [if_neg hr]
      exact buildRows_distinct cols rows _ (processRow_distinct st _ h)

/-- Claim C6: TreeBuilder deduplicates by label at levels 0 and 1 and
never at level 2.  (i) After processing any sequence of data rows
from the initial state, no two sibling themes share a label and no two
sibling categories within a theme share a label — a repeated label is
therefore never emitted as a sibling duplicate; (ii) a row whose
level-0 value repeats an already-present theme label reuses the
existing node: the tree is left unchanged and the level-0 pointer is
set to the first (unique) layer with that label, so the row's deeper
values merge under it; (iii) a non-empty level-2 cell always appends a
fresh question node under the current category — the total question
count grows by exactly 1 — even when its text repeats an existing
question label. -/
theorem claim_C6 :
    (∀ (cols : List Nat) (rows : List (List (Option String))),
      distinctLabels (buildRows cols rows).layers) ∧
    (∀ (st : BuildState) (v : String) (i : Nat),
      findNameIdx v st.layers = some i →
      updateLevel st 0 (some v) = { st with stack0 := some i }) ∧
    (∀ (st : BuildState) (v : String) (i j : Nat),
      st.stack1 = some (i, j) → i < st.layers.length →
      j < (st.layers.getD i ⟨"", []⟩).categories.length →
      totalQuestions (updateLevel st 2 (some v)).layers
        = totalQuestions st.layers + 1) := by
  refine ⟨?_, ?_, ?_⟩
  · intro cols rows
    exact buildRows_distinct cols rows initBuildState
      ⟨by simp [initBuildState], by simp [initBuildState]⟩
  · intro st v i hfind
    exact updateLevel_zero_found st v i hfind
  · intro st v i j hst hi hj
    rw [updateLevel_two st v i j hst]
    show totalQuestions (appendQuestion st.layers i j v) = totalQuestions st.layers + 1
    unfold totalQuestions appendQuestion
    have hcat := sum_map_modifyAt (fun c => c.questions.length)
      (fun c => ⟨c.name, c.questions ++ [(⟨v, []⟩ : Question)]⟩) ⟨"", []⟩
      (st.layers.getD i ⟨"", []⟩).categories j hj
    have hlay := sum_map_modifyAt
      (fun l => (l.categories.map (fun c => c.questions.length)).sum)
      (fun l => ⟨l.name, modifyAt l.categories j
        (fun c => ⟨c.name, c.questions ++ [(⟨v, []⟩ : Question)]⟩)⟩) ⟨"", []⟩
      st.layers i hi
    simp at hcat hlay
    omega

/-- Claim C6, witness: the three parts at concrete inputs — two
identical rows build a tree with distinct theme/category labels; a
repeated theme label leaves the tree unchanged and points at the
existing node; inserting a question whose label already exists still
adds a new question node. -/
theorem claim_C6_witness :
    distinctLabels (buildRows [0, 1, 2]
      [[some ("T"), some ("C"), some ("Q")],
       [some ("T"), some ("C"), some ("Q")]]).layers ∧
    updateLevel (⟨[⟨("T"), []⟩], none, none, none⟩ : BuildState) 0 (some ("T"))
      = ⟨[⟨("T"), []⟩], some 0, none, none⟩ ∧
    totalQuestions (updateLevel
      (⟨[⟨("T"), [⟨("C"), [⟨("Q"), []⟩]⟩]⟩], some 0, some (0, 0), none⟩ : BuildState)
      2 (some ("Q"))).layers
      = totalQuestions [⟨("T"), [⟨("C"), [⟨("Q"), []⟩]⟩]⟩] + 1 :=
  ⟨claim_C6.1 [0, 1, 2]
     [[some ("T"), some ("C"), some ("Q")],
      [some ("T"), some ("C"), some ("Q")]],
   claim_C6.2.1 (⟨[⟨("T"), []⟩], none, none, none⟩ : BuildState) ("T") 0 (by decide),
   claim_C6.2.2
     (⟨[⟨("T"), [⟨("C"), [⟨("Q"), []⟩]⟩]⟩], some 0, some (0, 0), none⟩ : BuildState)
     ("Q") 0 0 (by decide) (by decide) (by decide)⟩

/-- Claim C7: the layer-stack discipline of TreeBuilder's row loop.
(a) A level-1 value with no level-0 pointer is silently dropped (the
state, in particular the tree, is unchanged); (b) a level-2 value with
no level-1 pointer is silently dropped; (c) a level-3-or-deeper value
with no level-2 pointer is silently dropped; (d) a level-1 value whose
label is not yet present under the pointed-at theme attaches exactly
as a child of the theme currently held by the level-0 pointer — that
theme gains the new category at the end of its list and every other
theme is untouched (a label already present reuses the existing node,
see the deduplication claim); (e) a level-2 value with the level-1
pointer set to `(i, j)` attaches exactly as a child of the category
currently held by that pointer — that category gains the new question
at the end of its list and every other category is untouched; (f) a
level-3-or-deeper value attaches exactly to the question currently
held by the level-2 pointer — that question gains the value at the end
of its sub-question list and every other question is untouched; (g)
after processing a row whose deepest non-empty level is `d`, every
stack pointer deeper than `d` is reset to `none` — in particular a row
carrying only a new theme at level 0 resets the level-1 and level-2
pointers. -/
theorem claim_C7 :
    (∀ (st : BuildState) (v : String), st.stack0 = none →
      updateLevel st 1 (some v) = st) ∧
    (∀ (st : BuildState) (v : String), st.stack1 = none →
      updateLevel st 2 (some v) = st) ∧
    (∀ (st : BuildState) (v : String) (lvl : Nat), 3 ≤ lvl → st.stack2 = none →
      updateLevel st lvl (some v) = st) ∧
    (∀ (st : BuildState) (v : String) (i : Nat),
      st.stack0 = some i → i < st.layers.length →
      findCatIdx v (st.layers.getD i ⟨"", []⟩).categories = none →
      ((updateLevel st 1 (some v)).layers.getD i ⟨"", []⟩
         = ⟨(st.layers.getD i ⟨"", []⟩).name,
            (st.layers.getD i ⟨"", []⟩).categories ++ [⟨v, []⟩]⟩ ∧
       ∀ (i2 : Nat), i2 ≠ i →
         (updateLevel st 1 (some v)).layers.getD i2 ⟨"", []⟩
           = st.layers.getD i2 ⟨"", []⟩)) ∧
    (∀ (st : BuildState) (v : String) (i j : Nat),
      st.stack1 = some (i, j) → i < st.layers.length →
      j < (st.layers.getD i ⟨"", []⟩).categories.length →
      (categoryAt (updateLevel st 2 (some v)).layers i j
         = ⟨(categoryAt st.layers i j).name,
            (categoryAt st.layers i j).questions ++ [⟨v, []⟩]⟩ ∧
       ∀ (i2 j2 : Nat), i2 ≠ i ∨ j2 ≠ j →
         categoryAt (updateLevel st 2 (some v)).layers i2 j2
           = categoryAt st.layers i2 j2)) ∧
    (∀ (st : BuildState) (v : String) (lvl i j k : Nat), 3 ≤ lvl →
      st.stack2 = some (i, j, k) → i < st.layers.length →
      j < (st.layers.getD i ⟨"", []⟩).categories.length →
      k < (categoryAt st.layers i j).questions.length →
      ((categoryAt (updateLevel st lvl (some v)).layers i j).questions.getD k ⟨"", []⟩
         = ⟨((categoryAt st.layers i j).questions.getD k ⟨"", []⟩).main_question,
            ((categoryAt st.layers i j).questions.getD k ⟨"", []⟩).sub_questions ++ [v]⟩ ∧
       ∀ (i2 j2 k2 : Nat), i2 ≠ i ∨ j2 ≠ j ∨ k2 ≠ k →
         (categoryAt (updateLevel st lvl (some v)).layers i2 j2).questions.getD k2 ⟨"", []⟩
           = (categoryAt st.layers i2 j2).questions.getD k2 ⟨"", []⟩)) ∧
    (∀ (st : BuildState) (vals : List (Option String)) (d : Nat),
      deepestLevel vals = some d →
      ((d < 1 → (processRow st vals).stack1 = none) ∧
       (d < 2 → (processRow st vals).stack2 = none))) := by
  refine ⟨updateLevel_one_unset, updateLevel_two_unset,
    (fun st v lvl hlvl h => updateLevel_hi_unset st v lvl hlvl h), ?_, ?_, ?_, ?_⟩
  · intro st v i hst hi hfind
    rw [updateLevel_one_new st v i hst hfind]
    constructor
    · show (appendCategory st.layers i v).getD i ⟨"", []⟩ = _
      unfold appendCategory
      rw [getD_modifyAt_self _ ⟨"", []⟩ st.layers i hi]
    · intro i2 hne
      show (appendCategory st.layers i v).getD i2 ⟨"", []⟩ = st.layers.getD i2 ⟨"", []⟩
      unfold appendCategory
      rw [getD_modifyAt_ne (α := Layer)
        (fun l => ⟨l.name, l.categories ++ [(⟨v, []⟩ : Category)]⟩) ⟨"", []⟩
        st.layers i i2 (fun hh => hne hh.symm)]
  · intro st v i j hst hi hj
    rw [updateLevel_two st v i j hst]
    constructor
    · show categoryAt (appendQuestion st.layers i j v) i j = _
      unfold categoryAt appendQuestion
      rw [getD_modifyAt_self _ ⟨"", []⟩ st.layers i hi]
      show (modifyAt (st.layers.getD i ⟨"", []⟩).categories j
        (fun c => ⟨c.name, c.questions ++ [(⟨v, []⟩ : Question)]⟩)).getD j ⟨"", []⟩ = _
      rw [getD_modifyAt_self _ ⟨"", []⟩ _ j hj]
    · intro i2 j2 hne
      show categoryAt (appendQuestion st.layers i j v) i2 j2 = categoryAt st.layers i2 j2
      unfold categoryAt appendQuestion
      by_cases hii : i2 = i
      · subst hii
        have hjj : j2 ≠ j := by
          rcases hne with hh | hh
          · exact absurd rfl hh
          · exact hh
        rw [getD_modifyAt_self _ ⟨"", []⟩ st.layers i2 hi]
        show (modifyAt (st.layers.getD i2 ⟨"", []⟩).categories j
          (fun c => ⟨c.name, c.questions ++ [(⟨v, []⟩ : Question)]⟩)).getD j2 ⟨"", []⟩ = _
        rw [getD_modifyAt_ne (α := Category)
          (fun c => ⟨c.name, c.questions ++ [(⟨v, []⟩ : Question)]⟩) ⟨"", []⟩
          (st.layers.getD i2 ⟨"", []⟩).categories j j2 (fun hh => hjj hh.symm)]
      · rw [getD_modifyAt_ne (α := Layer)
          (fun l => ⟨l.name, modifyAt l.categories j
            (fun c => ⟨c.name, c.questions ++ [(⟨v, []⟩ : Question)]⟩)⟩) ⟨"", []⟩
          st.layers i i2 (fun hh => hii hh.symm)]
  · intro st v lvl i j k hlvl hst hi hj hk
    rw [updateLevel_hi st v lvl i j k hlvl hst]
    constructor
    · show ((categoryAt (appendSubQuestion st.layers i j k v) i j).questions.getD
        k ⟨"", []⟩) = _
      unfold categoryAt appendSubQuestion
      rw [getD_modifyAt_self _ ⟨"", []⟩ st.layers i hi]
      show ((modifyAt (st.layers.getD i ⟨"", []⟩).categories j
        (fun c => ⟨c.name, modifyAt c.questions k
          (fun q => ⟨q.main_question, q.sub_questions ++ [v]⟩)⟩)).getD
        j ⟨"", []⟩).questions.getD k ⟨"", []⟩ = _
      rw [getD_modifyAt_self _ ⟨"", []⟩ (st.layers.getD i ⟨"", []⟩).categories j hj]
      show (modifyAt ((st.layers.getD i ⟨"", []⟩).categories.getD j ⟨"", []⟩).questions k
        (fun q => ⟨q.main_question, q.sub_questions ++ [v]⟩)).getD k ⟨"", []⟩ = _
      rw [getD_modifyAt_self _ ⟨"", []⟩
        ((st.layers.getD i ⟨"", []⟩).categories.getD j ⟨"", []⟩).questions k hk]
    · intro i2 j2 k2 hne
      show (categoryAt (appendSubQuestion st.layers i j k v) i2 j2).questions.getD
        k2 ⟨"", []⟩ = (categoryAt st.layers i2 j2).questions.getD k2 ⟨"", []⟩
      unfold categoryAt appendSubQuestion
      by_cases hii : i2 = i
      · subst hii
        rw [getD_modifyAt_self _ ⟨"", []⟩ st.layers i2 hi]
        by_cases hjj : j2 = j
        · subst hjj
          have hkk : k2 ≠ k := by
            rcases hne with hh | hh | hh
            · exact absurd rfl hh
            · exact absurd rfl hh
            · exact hh
          show ((modifyAt (st.layers.getD i2 ⟨"", []⟩).categories j2
            (fun c => ⟨c.name, modifyAt c.questions k
              (fun q => ⟨q.main_question, q.sub_questions ++ [v]⟩)⟩)).getD
            j2 ⟨"", []⟩).questions.getD k2 ⟨"", []⟩ = _
          rw [getD_modifyAt_self _ ⟨"", []⟩ (st.layers.getD i2 ⟨"", []⟩).categories j2 hj]
          show (modifyAt ((st.layers.getD i2 ⟨"", []⟩).categories.getD
            j2 ⟨"", []⟩).questions k
            (fun q => ⟨q.main_question, q.sub_questions ++ [v]⟩)).getD k2 ⟨"", []⟩ = _
          rw [getD_modifyAt_ne (α := Question)
            (fun q => ⟨q.main_question, q.sub_questions ++ [v]⟩) ⟨"", []⟩
            ((st.layers.getD i2 ⟨"", []⟩).categories.getD j2 ⟨"", []⟩).questions k k2
            (fun hh => hkk hh.symm)]
        · show ((modifyAt (st.layers.getD i2 ⟨"", []⟩).categories j
            (fun c => ⟨c.name, modifyAt c.questions k
              (fun q => ⟨q.main_question, q.sub_questions ++ [v]⟩)⟩)).getD
            j2 ⟨"", []⟩).questions.getD k2 ⟨"", []⟩ = _
          rw [getD_modifyAt_ne (α := Category)
            (fun c => ⟨c.name, modifyAt c.questions k
              (fun q => ⟨q.main_question, q.sub_questions ++ [v]⟩)⟩) ⟨"", []⟩
            (st.layers.getD i2 ⟨"", []⟩).categories j j2 (fun hh => hjj hh.symm)]
      · rw [getD_modifyAt_ne (α := Layer)
          (fun l => ⟨l.name, modifyAt l.categories j
            (fun c => ⟨c.name, modifyAt c.questions k
              (fun q => ⟨q.main_question, q.sub_questions ++ [v]⟩)⟩)⟩) ⟨"", []⟩
          st.layers i i2 (fun hh => hii hh.symm)]
  · intro st vals d hd
    unfold processRow
    rw [hd]
    constructor
    · intro h1
      simp [h1]
    · intro h2
      simp [h2]

/-- Claim C7, witness: the parts at concrete states — a category value
with no theme pointer is dropped; a question value with no category
pointer is dropped; a level-3 value with no question pointer is
dropped; a fresh category attaches exactly under the pointed-at theme
while the other theme is untouched; a question attaches exactly under
the pointed-at category while a different slot is untouched; a
sub-question string attaches exactly to the pointed-at question while
its sibling question is untouched; a row carrying only a new theme at
level 0 resets the level-1 and level-2 pointers. -/
theorem claim_C7_witness :
    updateLevel (⟨[], none, none, none⟩ : BuildState) 1 (some ("C"))
      = ⟨[], none, none, none⟩ ∧
    updateLevel (⟨[⟨("T"), []⟩], some 0, none, none⟩ : BuildState) 2 (some ("Q"))
      = ⟨[⟨("T"), []⟩], some 0, none, none⟩ ∧
    updateLevel (⟨[⟨("T"), []⟩], some 0, none, none⟩ : BuildState) 3 (some ("S"))
      = ⟨[⟨("T"), []⟩], some 0, none, none⟩ ∧
    (updateLevel (⟨[⟨("T"), []⟩, ⟨("U"), []⟩], some 0, none, none⟩ : BuildState)
      1 (some ("C"))).layers.getD 0 ⟨"", []⟩ = ⟨("T"), [⟨("C"), []⟩]⟩ ∧
    (updateLevel (⟨[⟨("T"), []⟩, ⟨("U"), []⟩], some 0, none, none⟩ : BuildState)
      1 (some ("C"))).layers.getD 1 ⟨"", []⟩ = ⟨("U"), []⟩ ∧
    categoryAt (updateLevel
      (⟨[⟨("T"), [⟨("C"), [⟨("Q"), []⟩]⟩]⟩], some 0, some (0, 0), none⟩ : BuildState)
      2 (some ("V"))).layers 0 0
      = ⟨("C"), [⟨("Q"), []⟩, ⟨("V"), []⟩]⟩ ∧
    categoryAt (updateLevel
      (⟨[⟨("T"), [⟨("C"), [⟨("Q"), []⟩]⟩]⟩], some 0, some (0, 0), none⟩ : BuildState)
      2 (some ("V"))).layers 1 0
      = categoryAt [⟨("T"), [⟨("C"), [⟨("Q"), []⟩]⟩]⟩] 1 0 ∧
    (categoryAt (updateLevel
      (⟨[⟨("T"), [⟨("C"), [⟨("Q"), [("S0")]⟩, ⟨("R"), []⟩]⟩]⟩], some 0, some (0, 0),
        some (0, 0, 0)⟩ : BuildState)
      3 (some ("S1"))).layers 0 0).questions.getD 0 ⟨"", []⟩
      = ⟨("Q"), [("S0"), ("S1")]⟩ ∧
    (categoryAt (updateLevel
      (⟨[⟨("T"), [⟨("C"), [⟨("Q"), [("S0")]⟩, ⟨("R"), []⟩]⟩]⟩], some 0, some (0, 0),
        some (0, 0, 0)⟩ : BuildState)
      3 (some ("S1"))).layers 0 0).questions.getD 1 ⟨"", []⟩
      = ⟨("R"), []⟩ ∧
    (processRow
      (⟨[⟨("T"), [⟨("C"), [⟨("Q"), []⟩]⟩]⟩], some 0, some (0, 0), some (0, 0, 0)⟩ :
        BuildState) [some ("T2"), none, none]).stack1 = none ∧
    (processRow
      (⟨[⟨("T"), [⟨("C"), [⟨("Q"), []⟩]⟩]⟩], some 0, some (0, 0), some (0, 0, 0)⟩ :
        BuildState) [some ("T2"), none, none]).stack2 = none :=
  ⟨claim_C7.1 (⟨[], none, none, none⟩ : BuildState) ("C") rfl,
   claim_C7.2.1 (⟨[⟨("T"), []⟩], some 0, none, none⟩ : BuildState) ("Q") rfl,
   claim_C7.2.2.1 (⟨[⟨("T"), []⟩], some 0, none, none⟩ : BuildState) ("S") 3
     (by decide) rfl,
   (claim_C7.2.2.2.1
     (⟨[⟨("T"), []⟩, ⟨("U"), []⟩], some 0, none, none⟩ : BuildState) ("C") 0
     rfl (by decide) (by decide)).1,
   (claim_C7.2.2.2.1
     (⟨[⟨("T"), []⟩, ⟨("U"), []⟩], some 0, none, none⟩ : BuildState) ("C") 0
     rfl (by decide) (by decide)).2 1 (by decide),
   (claim_C7.2.2.2.2.1
     (⟨[⟨("T"), [⟨("C"), [⟨("Q"), []⟩]⟩]⟩], some 0, some (0, 0), none⟩ : BuildState)
     ("V") 0 0 rfl (by decide) (by decide)).1,
   (claim_C7.2.2.2.2.1
     (⟨[⟨("T"), [⟨("C"), [⟨("Q"), []⟩]⟩]⟩], some 0, some (0, 0), none⟩ : BuildState)
     ("V") 0 0 rfl (by decide) (by decide)).2 1 0 (Or.inl (by decide)),
   (claim_C7.2.2.2.2.2.1
     (⟨[⟨("T"), [⟨("C"), [⟨("Q"), [("S0")]⟩, ⟨("R"), []⟩]⟩]⟩], some 0, some (0, 0),
       some (0, 0, 0)⟩ : BuildState)
     ("S1") 3 0 0 0 (by decide) rfl (by decide) (by decide) (by decide)).1,
   (claim_C7.2.2.2.2.2.1
     (⟨[⟨("T"), [⟨("C"), [⟨("Q"), [("S0")]⟩, ⟨("R"), []⟩]⟩]⟩], some 0, some (0, 0),
       some (0, 0, 0)⟩ : BuildState)
     ("S1") 3 0 0 0 (by decide) rfl (by decide) (by decide) (by decide)).2
     0 0 1 (Or.inr (Or.inr (by decide))),
   (claim_C7.2.2.2.2.2.2
     (⟨[⟨("T"), [⟨("C"), [⟨("Q"), []⟩]⟩]⟩], some 0, some (0, 0), some (0, 0, 0)⟩ :
       BuildState) [some ("T2"), none, none] 0 (by decide)).1 (by decide),
   (claim_C7.2.2.2.2.2.2
     (⟨[⟨("T"), [⟨("C"), [⟨("Q"), []⟩]⟩]⟩], some 0, some (0, 0), some (0, 0, 0)⟩ :
       BuildState) [some ("T2"), none, none] 0 (by decide)).2 (by decide)⟩
